import Mathlib

/-!
Verification development for the parallel dumper pipeline of createrepo_c
(`src/dumper_thread.c` together with the checksum enum of `src/constants.h`).

The development has two layers.

* A pure embedding of the per-task helper code of `cr_dumper_thread`:
  the stat / cache-freshness decision (lines 251-289), the package loader
  `load_rpm` (lines 160-230), and the body of `write_pkg` (lines 62-141)
  with injected append / database errors.  External collaborators
  (`stat`, `cr_package_from_rpm_base`, `cr_checksum_file`,
  `cr_get_header_byte_range`, the hash table lookup) are modelled by their
  outcomes, supplied as inputs.

* A small-step interleaving semantics of the whole worker pool.  Each task
  invocation of `cr_dumper_thread` is one process.  Every
  `(mutex, condvar, counter)` protected critical section of `write_pkg`
  and of the failure path (label `task_cleanup`) is one atomic guarded
  step: the section runs entirely under its stream mutex and its
  condition-variable wait completes exactly when the counter equals the
  task id.  The reads of `id_pri` that the source performs outside the
  primary mutex (the buffering admission test, the `task_cleanup` test and
  the drain-loop head test) are modelled as reads of the current counter
  value at that step.  Quantifying over all interleavings of these steps
  covers every worker-pool size and every completion order.
-/

namespace CreaterepoDumper

/-- Checksum type, from `src/constants.h` (`cr_ChecksumType`). -/
inductive cr_ChecksumType where
  | md5
  | sha1
  | sha256
deriving DecidableEq

/-- The result of a `stat()` call that the dumper consumes:
`st_mtime` and `st_size` are the only fields the code reads. -/
structure StatBuf where
  st_mtime : Int
  st_size : Int
deriving DecidableEq

/-- The fields of a cached `cr_Package` (loaded from old metadata) that the
freshness test of `cr_dumper_thread` reads: `time_file`, `size_package`
and the interned `checksum_type` name. -/
structure CachedPkg where
  time_file : Int
  size_package : Int
  checksum_type : String
deriving DecidableEq

/-- The freshness comparison of `cr_dumper_thread` (lines 271-273):
`stat_buf.st_mtime == md->time_file && stat_buf.st_size == md->size_package
&& !strcmp(udata->checksum_type_str, md->checksum_type)`. -/
def statMatches (stat_buf : StatBuf) (md : CachedPkg) (checksum_type_str : String) : Bool :=
  stat_buf.st_mtime == md.time_file && stat_buf.st_size == md.size_package
    && checksum_type_str == md.checksum_type

/-- Inputs of the stat / cache phase of one `cr_dumper_thread` invocation.
`old_metadata` is whether `udata->old_metadata` is non-NULL, `lookup_md` is
the hash-table lookup result for `task->filename`, and `stat_result` is the
outcome of `stat(task->full_path, &stat_buf)` (`none` meaning `-1`). -/
structure PreEnv where
  old_metadata : Bool
  skip_stat : Bool
  lookup_md : Option CachedPkg
  stat_result : Option StatBuf
  checksum_type_str : String
deriving DecidableEq

/-- Where the stat / cache phase of `cr_dumper_thread` hands control:
`taskCleanup` is `goto task_cleanup`, `useOld md` is the `old_used` path, and
`loadFresh a` is the call of `load_rpm` with stat argument `a`. -/
inductive PreOutcome where
  | taskCleanup
  | useOld (md : CachedPkg)
  | loadFresh (stat_arg : Option StatBuf)
deriving DecidableEq

/-- The stat / cache phase of `cr_dumper_thread` (lines 251-304), returning
the control-flow outcome and whether `stat()` was invoked.  The local
`stat_buf` is uninitialized until the guarded `stat()` call fills it; that is
modelled by an `Option StatBuf` that is `none` while uninitialized, and the
`junk` parameter is the value the freshness comparison would produce if it
ever read the uninitialized buffer.  The stat argument of `loadFresh` is the
seventh argument of the `load_rpm` call at lines 294-297, which the source
passes as `NULL`. -/
def prePhase (e : PreEnv) (junk : Bool) : PreOutcome × Bool :=
  let statCalled := e.old_metadata && !e.skip_stat
  if statCalled && e.stat_result.isNone then
    (PreOutcome.taskCleanup, statCalled)
  else
    let stat_buf : Option StatBuf := if statCalled then e.stat_result else none
    match (if e.old_metadata then e.lookup_md else none) with
    | some md =>
        let old_used : Bool :=
          if e.skip_stat then
            true
          else
            match stat_buf with
            | some sb => statMatches sb md e.checksum_type_str
            | none => junk
        if old_used then (PreOutcome.useOld md, statCalled)
        else (PreOutcome.loadFresh none, statCalled)
    | none => (PreOutcome.loadFresh none, statCalled)

/-- Outcomes of the external calls made by `load_rpm`:
`cr_package_from_rpm_base`, the internal `stat`, `cr_checksum_file`
(via `get_checksum`), and `cr_get_header_byte_range`; `checksum_name` is
`cr_checksum_name_str(checksum_type)`. -/
structure LoadEnv where
  parse_ok : Bool
  fs_stat : Option StatBuf
  checksum_result : Option String
  header_range : Option (Nat × Nat)
  checksum_name : String
deriving DecidableEq

/-- The fields of a freshly parsed `cr_Package` that `load_rpm` fills. -/
structure Pkg where
  location_href : String
  location_base : String
  checksum_type : String
  time_file : Int
  size_package : Int
  pkgId : String
  rpm_header_start : Nat
  rpm_header_end : Nat
deriving DecidableEq

/-- The tail of `load_rpm` after `time_file` / `size_package` are known:
checksum computation and header-range probe (lines 205-223). -/
def load_rpm_rest (env : LoadEnv) (location_href location_base : String)
    (time_file size_package : Int) : Option Pkg :=
  match env.checksum_result with
  | none => none
  | some ck =>
      match env.header_range with
      | none => none
      | some hr =>
          some ⟨location_href, location_base, env.checksum_name,
                time_file, size_package, ck, hr.1, hr.2⟩

/-- `load_rpm` (lines 160-230).  The second component records whether the
function performed its own `stat()` call: it does so exactly when the
caller passed no stat buffer (`stat_buf == NULL`, lines 189-199) and
parsing succeeded; when a buffer is passed, `time_file` and `size_package`
are taken from it (lines 200-203). -/
def load_rpm (env : LoadEnv) (location_href location_base : String)
    (stat_buf : Option StatBuf) : Option Pkg × Bool :=
  if env.parse_ok = false then
    (none, false)
  else
    match stat_buf with
    | none =>
        match env.fs_stat with
        | none => (none, true)
        | some sb =>
            (load_rpm_rest env location_href location_base sb.st_mtime sb.st_size, true)
    | some sb =>
        (load_rpm_rest env location_href location_base sb.st_mtime sb.st_size, false)

/-- The three XML chunks produced for one package
(`struct cr_XmlStruct` of `xml_dump.h`, as used by `dumper_thread.c`). -/
structure cr_XmlStruct where
  primary : String
  filelists : String
  other : String
deriving DecidableEq

/-- Which of the three optional database mirrors are configured
(`udata->pri_db`, `udata->fil_db`, `udata->oth_db` non-NULL). -/
structure SinkCfg where
  pri_db : Bool
  fil_db : Bool
  oth_db : Bool
deriving DecidableEq

/-- Injected failures for one `write_pkg` call: whether each
`cr_xmlfile_add_chunk` and each `cr_db_add_pkg` call reports an error. -/
structure ErrInj where
  add_pri : Bool
  add_fil : Bool
  add_oth : Bool
  db_pri : Bool
  db_fil : Bool
  db_oth : Bool
deriving DecidableEq

/-- The sink state one `write_pkg` call manipulates: the three counters,
the chunk sequences appended to the three streams, the critical log, and
the number of `g_cond_broadcast` calls per stream. -/
structure SeqSink where
  id_pri : Nat
  id_fil : Nat
  id_oth : Nat
  out_pri : List String
  out_fil : List String
  out_oth : List String
  log : List String
  bcast_pri : Nat
  bcast_fil : Nat
  bcast_oth : Nat
deriving DecidableEq

/-- The body of `write_pkg` (lines 62-141) after each of the three
condition-variable waits has completed (the waits and mutexes are handled
by the interleaving semantics below; this function is the sequential
effect of the three critical sections).  A failing `cr_xmlfile_add_chunk`
appends nothing and is logged critically; a failing `cr_db_add_pkg` is
logged critically for the primary and filelists databases.  For the other
database the source calls `cr_db_add_pkg(udata->oth_db, pkg, NULL)`
(line 131): the error output pointer is `NULL`, so `tmp_err` — cleared by
every earlier handler — is still `NULL` at line 132 and the `g_critical`
block at lines 132-136 never executes. -/
def write_pkg_seq (id : Nat) (res : cr_XmlStruct) (cfg : SinkCfg) (errs : ErrInj)
    (s0 : SeqSink) : SeqSink :=
  -- primary stream
  let s1 : SeqSink := { s0 with id_pri := s0.id_pri + 1 }
  let s2 : SeqSink :=
    if errs.add_pri then { s1 with log := s1.log ++ ["Cannot add primary chunk"] }
    else { s1 with out_pri := s1.out_pri ++ [res.primary] }
  let s3 : SeqSink :=
    if cfg.pri_db && errs.db_pri then
      { s2 with log := s2.log ++ ["Cannot add record to primary db"] }
    else s2
  let s4 : SeqSink := { s3 with bcast_pri := s3.bcast_pri + 1 }
  -- filelists stream
  let s5 : SeqSink := { s4 with id_fil := s4.id_fil + 1 }
  let s6 : SeqSink :=
    if errs.add_fil then { s5 with log := s5.log ++ ["Cannot add filelists chunk"] }
    else { s5 with out_fil := s5.out_fil ++ [res.filelists] }
  let s7 : SeqSink :=
    if cfg.fil_db && errs.db_fil then
      { s6 with log := s6.log ++ ["Cannot add record to filelists db"] }
    else s6
  let s8 : SeqSink := { s7 with bcast_fil := s7.bcast_fil + 1 }
  -- other stream
  let s9 : SeqSink := { s8 with id_oth := s8.id_oth + 1 }
  let s10 : SeqSink :=
    if errs.add_oth then { s9 with log := s9.log ++ ["Cannot add other chunk"] }
    else { s9 with out_oth := s9.out_oth ++ [res.other] }
  -- cr_db_add_pkg(udata->oth_db, pkg, NULL): the error pointer is NULL, so a
  -- failure of the other-database insert leaves tmp_err NULL and nothing is
  -- logged; the following `if (tmp_err)` block is unreachable.
  let s11 : SeqSink := s10
  let s12 : SeqSink := { s11 with bcast_oth := s11.bcast_oth + 1 }
  s12

/- ------------------------------------------------------------------ -/
/- The interleaving semantics of the worker pool.                      -/
/- ------------------------------------------------------------------ -/

/-- `MAX_TASK_BUFFER_LEN` (line 35). -/
def MAX_TASK_BUFFER_LEN : Nat := 20

/-- One entry of the reorder buffer (`struct BufferedTask`, lines 38-47):
the task id and its generated XML.  The `pkg` pointer, the ownership flag
`pkg_from_md` and the `location_href` copy only govern memory reclamation
and are not part of the observable stream behaviour modelled here. -/
structure BufferedTask where
  id : Nat
  res : cr_XmlStruct
deriving DecidableEq

/-- Order used by `buf_task_sort_func` (lines 50-59): ascending task id. -/
def bufLE (a b : BufferedTask) : Prop := a.id ≤ b.id

instance : DecidableRel bufLE := fun a b => inferInstanceAs (Decidable (a.id ≤ b.id))

instance : IsTotal BufferedTask bufLE := ⟨fun a b => Nat.le_total a.id b.id⟩

instance : IsTrans BufferedTask bufLE := ⟨fun _ _ _ h₁ h₂ => Nat.le_trans h₁ h₂⟩

/-- `g_queue_insert_sorted(udata->buffer, buf_task, buf_task_sort_func, NULL)`
(line 355): insert keeping the queue sorted by ascending id. -/
def bufInsert (b : BufferedTask) (q : List BufferedTask) : List BufferedTask :=
  List.orderedInsert bufLE b q

/-- The constant data of a run: `udata->package_count`, and for each task id
the outcome of its load/parse phase (`success i = false` abstracts any of the
failures that jump to `task_cleanup`: the early `stat()` failure, a
`load_rpm` failure, or a `cr_xml_dump` failure) and the XML triple
`cr_xml_dump` produces for it (`cr_xml_dump` is deterministic, so the triple
is a function of the task). -/
structure RunEnv where
  package_count : Nat
  success : Nat → Bool
  xml_dump : Nat → cr_XmlStruct

/-- The buffering admission decision of `cr_dumper_thread` (lines 329-355):
the task is deposited iff the buffer holds fewer than `MAX_TASK_BUFFER_LEN`
entries, `udata->id_pri != task->id`, and
`udata->package_count > task->id + 1`; on admission the task is inserted
sorted by id. -/
def tryBufferTask (p : RunEnv) (id_pri : Nat) (buffer : List BufferedTask)
    (id : Nat) (res : cr_XmlStruct) : Option (List BufferedTask) :=
  if buffer.length < MAX_TASK_BUFFER_LEN ∧ id_pri ≠ id ∧ p.package_count > id + 1 then
    some (bufInsert ⟨id, res⟩ buffer)
  else
    none

/-- Which of the three per-stream critical sections a write or skip is in. -/
inductive StreamStage where
  | pri
  | fil
  | oth
deriving DecidableEq

/-- Whether a `write_pkg` call is for the worker's own task (line 369) or
for a task popped from the reorder buffer in the drain loop (line 417). -/
inductive WriteMode where
  | own
  | drained
deriving DecidableEq

/-- Control location of one `cr_dumper_thread` invocation.

* `start` — before the stat / cache / load / dump phase;
* `atBufferCheck res` — the phase succeeded with XML `res`; about to run
  the buffering admission test (line 329) under `mutex_buffer`;
* `writing j res st m` — inside `write_pkg(j, res, ...)`, about to enter
  the critical section of stream `st`;
* `atCleanupCheck` — at the `task_cleanup` test `id_pri <= task->id`
  (line 379), reached either from a failure or by falling through after a
  successful `write_pkg`;
* `skipping st` — in the failure-path counter advance, about to enter the
  critical section of stream `st` (lines 381-400);
* `atDrain` — at the head test of the drain loop (lines 409-413);
* `done` — the invocation returned. -/
inductive Phase where
  | start
  | atBufferCheck (res : cr_XmlStruct)
  | writing (j : Nat) (res : cr_XmlStruct) (st : StreamStage) (m : WriteMode)
  | atCleanupCheck
  | skipping (st : StreamStage)
  | atDrain
  | done
deriving DecidableEq

/-- One process: the id of the task it was invoked on, and its phase. -/
structure Proc where
  tid : Nat
  ph : Phase
deriving DecidableEq

/-- The shared mutable state of a run: the three counters and stream
outputs of `struct UserData`, the reorder buffer, and the control state of
every task invocation. -/
structure DumperState where
  id_pri : Nat
  id_fil : Nat
  id_oth : Nat
  out_pri : List String
  out_fil : List String
  out_oth : List String
  buffer : List BufferedTask
  procs : List Proc
deriving DecidableEq

/-- Initial state: counters at zero, empty streams and buffer, one process
per task id `0 .. package_count - 1`, all at `start`. -/
def initState (p : RunEnv) : DumperState :=
  ⟨0, 0, 0, [], [], [], [],
   (List.range p.package_count).map fun i => ⟨i, Phase.start⟩⟩

/-- One atomic step of the worker pool.  Each constructor fires for one
process (isolated by the list decomposition `l₁ ++ pr :: l₂`) and mirrors
one critical section or one lock-free decision of `dumper_thread.c`. -/
inductive Step (p : RunEnv) : DumperState → DumperState → Prop where
  /-- The stat / cache / load / dump phase succeeds (lines 251-324);
  `res = cr_xml_dump(...)` and the worker proceeds to the buffering code. -/
  | prep_ok (s : DumperState) (l₁ l₂ : List Proc) (i : Nat)
      (hp : s.procs = l₁ ++ ⟨i, Phase.start⟩ :: l₂)
      (hs : p.success i = true) :
      Step p s { s with procs := l₁ ++ ⟨i, Phase.atBufferCheck (p.xml_dump i)⟩ :: l₂ }
  /-- The phase fails (stat / load_rpm / cr_xml_dump): `goto task_cleanup`. -/
  | prep_fail (s : DumperState) (l₁ l₂ : List Proc) (i : Nat)
      (hp : s.procs = l₁ ++ ⟨i, Phase.start⟩ :: l₂)
      (hs : p.success i = false) :
      Step p s { s with procs := l₁ ++ ⟨i, Phase.atCleanupCheck⟩ :: l₂ }
  /-- Buffering admitted (lines 329-363): the result is inserted into the
  buffer, the task is freed, and the invocation returns. -/
  | buffer_defer (s : DumperState) (l₁ l₂ : List Proc) (i : Nat)
      (res : cr_XmlStruct) (buf2 : List BufferedTask)
      (hp : s.procs = l₁ ++ ⟨i, Phase.atBufferCheck res⟩ :: l₂)
      (ht : tryBufferTask p s.id_pri s.buffer i res = some buf2) :
      Step p s { s with procs := l₁ ++ ⟨i, Phase.done⟩ :: l₂, buffer := buf2 }
  /-- Buffering refused: fall through to `write_pkg(task->id, res, ...)`. -/
  | buffer_pass (s : DumperState) (l₁ l₂ : List Proc) (i : Nat) (res : cr_XmlStruct)
      (hp : s.procs = l₁ ++ ⟨i, Phase.atBufferCheck res⟩ :: l₂)
      (ht : tryBufferTask p s.id_pri s.buffer i res = none) :
      Step p s
        { s with procs := l₁ ++ ⟨i, Phase.writing i res StreamStage.pri WriteMode.own⟩ :: l₂ }
  /-- Primary critical section of `write_pkg` (lines 71-92): wait until
  `id_pri == j`, increment, append the primary chunk, broadcast, unlock. -/
  | write_pri (s : DumperState) (l₁ l₂ : List Proc) (i j : Nat)
      (res : cr_XmlStruct) (m : WriteMode)
      (hp : s.procs = l₁ ++ ⟨i, Phase.writing j res StreamStage.pri m⟩ :: l₂)
      (hw : s.id_pri = j) :
      Step p s { s with procs := l₁ ++ ⟨i, Phase.writing j res StreamStage.fil m⟩ :: l₂,
                        id_pri := s.id_pri + 1,
                        out_pri := s.out_pri ++ [res.primary] }
  /-- Filelists critical section of `write_pkg` (lines 95-116). -/
  | write_fil (s : DumperState) (l₁ l₂ : List Proc) (i j : Nat)
      (res : cr_XmlStruct) (m : WriteMode)
      (hp : s.procs = l₁ ++ ⟨i, Phase.writing j res StreamStage.fil m⟩ :: l₂)
      (hw : s.id_fil = j) :
      Step p s { s with procs := l₁ ++ ⟨i, Phase.writing j res StreamStage.oth m⟩ :: l₂,
                        id_fil := s.id_fil + 1,
                        out_fil := s.out_fil ++ [res.filelists] }
  /-- Other critical section of `write_pkg` (lines 119-140) for the
  worker's own task; afterwards control falls through to `task_cleanup`. -/
  | write_oth_own (s : DumperState) (l₁ l₂ : List Proc) (i j : Nat) (res : cr_XmlStruct)
      (hp : s.procs = l₁ ++ ⟨i, Phase.writing j res StreamStage.oth WriteMode.own⟩ :: l₂)
      (hw : s.id_oth = j) :
      Step p s { s with procs := l₁ ++ ⟨i, Phase.atCleanupCheck⟩ :: l₂,
                        id_oth := s.id_oth + 1,
                        out_oth := s.out_oth ++ [res.other] }
  /-- Other critical section of `write_pkg` for a drained buffered task;
  afterwards the drain loop continues. -/
  | write_oth_drained (s : DumperState) (l₁ l₂ : List Proc) (i j : Nat) (res : cr_XmlStruct)
      (hp : s.procs = l₁ ++ ⟨i, Phase.writing j res StreamStage.oth WriteMode.drained⟩ :: l₂)
      (hw : s.id_oth = j) :
      Step p s { s with procs := l₁ ++ ⟨i, Phase.atDrain⟩ :: l₂,
                        id_oth := s.id_oth + 1,
                        out_oth := s.out_oth ++ [res.other] }
  /-- The `task_cleanup` test (line 379) is true: enter the failure-path
  counter advance. -/
  | cleanup_skip (s : DumperState) (l₁ l₂ : List Proc) (i : Nat)
      (hp : s.procs = l₁ ++ ⟨i, Phase.atCleanupCheck⟩ :: l₂)
      (hc : s.id_pri ≤ i) :
      Step p s { s with procs := l₁ ++ ⟨i, Phase.skipping StreamStage.pri⟩ :: l₂ }
  /-- The `task_cleanup` test is false: proceed to the drain loop. -/
  | cleanup_noskip (s : DumperState) (l₁ l₂ : List Proc) (i : Nat)
      (hp : s.procs = l₁ ++ ⟨i, Phase.atCleanupCheck⟩ :: l₂)
      (hc : ¬ s.id_pri ≤ i) :
      Step p s { s with procs := l₁ ++ ⟨i, Phase.atDrain⟩ :: l₂ }
  /-- Failure-path primary advance (lines 381-386): wait until
  `id_pri == task->id`, increment, broadcast; nothing is appended. -/
  | skip_pri (s : DumperState) (l₁ l₂ : List Proc) (i : Nat)
      (hp : s.procs = l₁ ++ ⟨i, Phase.skipping StreamStage.pri⟩ :: l₂)
      (hw : s.id_pri = i) :
      Step p s { s with procs := l₁ ++ ⟨i, Phase.skipping StreamStage.fil⟩ :: l₂,
                        id_pri := s.id_pri + 1 }
  /-- Failure-path filelists advance (lines 388-393). -/
  | skip_fil (s : DumperState) (l₁ l₂ : List Proc) (i : Nat)
      (hp : s.procs = l₁ ++ ⟨i, Phase.skipping StreamStage.fil⟩ :: l₂)
      (hw : s.id_fil = i) :
      Step p s { s with procs := l₁ ++ ⟨i, Phase.skipping StreamStage.oth⟩ :: l₂,
                        id_fil := s.id_fil + 1 }
  /-- Failure-path other advance (lines 395-400); afterwards the drain
  loop is entered. -/
  | skip_oth (s : DumperState) (l₁ l₂ : List Proc) (i : Nat)
      (hp : s.procs = l₁ ++ ⟨i, Phase.skipping StreamStage.oth⟩ :: l₂)
      (hw : s.id_oth = i) :
      Step p s { s with procs := l₁ ++ ⟨i, Phase.atDrain⟩ :: l₂,
                        id_oth := s.id_oth + 1 }
  /-- Drain-loop head test succeeds (lines 411-415): the head of the buffer
  carries the id the primary counter waits for; pop it and write it. -/
  | drain_pop (s : DumperState) (l₁ l₂ : List Proc) (i : Nat)
      (b : BufferedTask) (rest : List BufferedTask)
      (hp : s.procs = l₁ ++ ⟨i, Phase.atDrain⟩ :: l₂)
      (hb : s.buffer = b :: rest)
      (hr : b.id = s.id_pri) :
      Step p s { s with procs :=
                    l₁ ++ ⟨i, Phase.writing b.id b.res StreamStage.pri WriteMode.drained⟩ :: l₂,
                        buffer := rest }
  /-- Drain-loop exit: the buffer is empty; the invocation returns. -/
  | drain_exit_empty (s : DumperState) (l₁ l₂ : List Proc) (i : Nat)
      (hp : s.procs = l₁ ++ ⟨i, Phase.atDrain⟩ :: l₂)
      (hb : s.buffer = []) :
      Step p s { s with procs := l₁ ++ ⟨i, Phase.done⟩ :: l₂ }
  /-- Drain-loop exit: the head is not yet writable; the invocation
  returns. -/
  | drain_exit_notready (s : DumperState) (l₁ l₂ : List Proc) (i : Nat)
      (b : BufferedTask) (rest : List BufferedTask)
      (hp : s.procs = l₁ ++ ⟨i, Phase.atDrain⟩ :: l₂)
      (hb : s.buffer = b :: rest)
      (hr : b.id ≠ s.id_pri) :
      Step p s { s with procs := l₁ ++ ⟨i, Phase.done⟩ :: l₂ }

/-- Reachability from the initial state under arbitrary interleaving. -/
def Reach (p : RunEnv) (s : DumperState) : Prop :=
  Relation.ReflTransGen (Step p) (initState p) s

/-- Modelled from the spec: the serial reference output of one stream —
a run that processes tasks in id order `0 .. N-1` appends, for each
successful task, its chunk to the stream, and nothing for a failed task. -/
def serialRef (p : RunEnv) (proj : cr_XmlStruct → String) : Nat → List String
  | 0 => []
  | k + 1 => serialRef p proj k ++ (if p.success k then [proj (p.xml_dump k)] else [])

/-- Number of successful task ids below `k`. -/
def successCount (p : RunEnv) : Nat → Nat
  | 0 => 0
  | k + 1 => successCount p k + (if p.success k then 1 else 0)

/- ------------------------------------------------------------------ -/
/- The inductive invariant.                                            -/
/- ------------------------------------------------------------------ -/

/-- Task ids whose primary-stream advance this process still owes. -/
def heldPriL (p : RunEnv) (pr : Proc) : List Nat :=
  match pr.ph with
  | Phase.start => [pr.tid]
  | Phase.atBufferCheck _ => [pr.tid]
  | Phase.writing j _ StreamStage.pri _ => [j]
  | Phase.atCleanupCheck => if p.success pr.tid then [] else [pr.tid]
  | Phase.skipping StreamStage.pri => [pr.tid]
  | _ => []

/-- Task ids whose filelists-stream advance this process still owes. -/
def heldFilL (p : RunEnv) (pr : Proc) : List Nat :=
  match pr.ph with
  | Phase.start => [pr.tid]
  | Phase.atBufferCheck _ => [pr.tid]
  | Phase.writing j _ StreamStage.pri _ => [j]
  | Phase.writing j _ StreamStage.fil _ => [j]
  | Phase.atCleanupCheck => if p.success pr.tid then [] else [pr.tid]
  | Phase.skipping StreamStage.pri => [pr.tid]
  | Phase.skipping StreamStage.fil => [pr.tid]
  | _ => []

/-- Task ids whose other-stream advance this process still owes. -/
def heldOthL (p : RunEnv) (pr : Proc) : List Nat :=
  match pr.ph with
  | Phase.start => [pr.tid]
  | Phase.atBufferCheck _ => [pr.tid]
  | Phase.writing j _ _ _ => [j]
  | Phase.atCleanupCheck => if p.success pr.tid then [] else [pr.tid]
  | Phase.skipping _ => [pr.tid]
  | _ => []

/-- Multiset of ids held by a list of processes, via `f`. -/
def heldM (f : Proc → List Nat) : List Proc → Multiset Nat
  | [] => 0
  | pr :: l => (↑(f pr) : Multiset Nat) + heldM f l

/-- Multiset of ids held by the reorder buffer. -/
def bufIds (q : List BufferedTask) : Multiset Nat :=
  ↑(q.map BufferedTask.id)

/-- The interval `[a, b)` as a multiset. -/
def idsFrom (a b : Nat) : Multiset Nat :=
  ↑(List.range' a (b - a))

/-- Phases that are still on their way to the drain loop: every process in
such a phase will test the buffer head again before returning. -/
def isActive : Phase → Bool
  | Phase.start => false
  | Phase.atBufferCheck _ => false
  | Phase.writing _ _ _ _ => true
  | Phase.atCleanupCheck => true
  | Phase.skipping _ => true
  | Phase.atDrain => true
  | Phase.done => false

/-- Per-process well-formedness, relative to the current counters. -/
def ProcWF (p : RunEnv) (aPri aFil : Nat) (pr : Proc) : Prop :=
  match pr.ph with
  | Phase.atBufferCheck res => p.success pr.tid = true ∧ res = p.xml_dump pr.tid
  | Phase.writing j res st m =>
      p.success j = true ∧ res = p.xml_dump j ∧ (m = WriteMode.own → j = pr.tid)
        ∧ (st = StreamStage.fil → j < aPri)
        ∧ (st = StreamStage.oth → j < aPri ∧ j < aFil)
  | Phase.atCleanupCheck => p.success pr.tid = true → pr.tid < aPri
  | Phase.skipping st =>
      p.success pr.tid = false
        ∧ (st = StreamStage.fil → pr.tid < aPri)
        ∧ (st = StreamStage.oth → pr.tid < aPri ∧ pr.tid < aFil)
  | _ => True

/-- The inductive invariant of the dumper pool. -/
structure Inv (p : RunEnv) (s : DumperState) : Prop where
  acc_pri : heldM (heldPriL p) s.procs + bufIds s.buffer = idsFrom s.id_pri p.package_count
  acc_fil : heldM (heldFilL p) s.procs + bufIds s.buffer = idsFrom s.id_fil p.package_count
  acc_oth : heldM (heldOthL p) s.procs + bufIds s.buffer = idsFrom s.id_oth p.package_count
  out_pri : s.out_pri = serialRef p cr_XmlStruct.primary s.id_pri
  out_fil : s.out_fil = serialRef p cr_XmlStruct.filelists s.id_fil
  out_oth : s.out_oth = serialRef p cr_XmlStruct.other s.id_oth
  wf : ∀ pr ∈ s.procs, ProcWF p s.id_pri s.id_fil pr
  buf_wf : ∀ b ∈ s.buffer,
    p.success b.id = true ∧ b.res = p.xml_dump b.id ∧ b.id + 1 < p.package_count
  buf_sorted : List.Sorted bufLE s.buffer
  buf_len : s.buffer.length ≤ MAX_TASK_BUFFER_LEN
  prog : (∃ b ∈ s.buffer, b.id = s.id_pri) → ∃ pr ∈ s.procs, isActive pr.ph = true
  pri_le : s.id_pri ≤ p.package_count
  fil_le : s.id_fil ≤ p.package_count
  oth_le : s.id_oth ≤ p.package_count

/- ------------------------------------------------------------------ -/
/- Concrete runs used as witnesses.                                    -/
/- ------------------------------------------------------------------ -/

/-- A two-task run in which both tasks succeed. -/
def pDemo : RunEnv :=
  ⟨2, fun _ => true, fun _ => ⟨"p", "f", "o"⟩⟩

/-- A three-task run in which all tasks succeed. -/
def pDemo3 : RunEnv :=
  ⟨3, fun _ => true, fun _ => ⟨"p", "f", "o"⟩⟩

/-- A one-task run whose single task fails extraction. -/
def pFail : RunEnv :=
  ⟨1, fun _ => false, fun _ => ⟨"p", "f", "o"⟩⟩

/-- Mid-run state of `pDemo`: both primary writes are done while both
workers still have their filelists critical sections ahead of them. -/
def demoC8 : DumperState :=
  ⟨2, 0, 0, ["p", "p"], [], [], [],
   [⟨0, Phase.writing 0 ⟨"p", "f", "o"⟩ StreamStage.fil WriteMode.own⟩,
    ⟨1, Phase.writing 1 ⟨"p", "f", "o"⟩ StreamStage.fil WriteMode.own⟩]⟩

/-- Final state of the `pDemo` run. -/
def demoFinal : DumperState :=
  ⟨2, 2, 2, ["p", "p"], ["f", "f"], ["o", "o"], [],
   [⟨0, Phase.done⟩, ⟨1, Phase.done⟩]⟩

/-- Final state of the `pFail` run. -/
def failFinal : DumperState :=
  ⟨1, 1, 1, [], [], [], [], [⟨0, Phase.done⟩]⟩

/-- State of `pFail` after the failed extraction, at the cleanup test. -/
def failAtCleanup : DumperState :=
  ⟨0, 0, 0, [], [], [], [], [⟨0, Phase.atCleanupCheck⟩]⟩

/-- State of `pDemo3` in which worker 1 has produced its XML and stands at
the buffering admission test while `id_pri` is still 0. -/
def demoDefer : DumperState :=
  ⟨0, 0, 0, [], [], [], [],
   [⟨0, Phase.start⟩, ⟨1, Phase.atBufferCheck ⟨"p", "f", "o"⟩⟩, ⟨2, Phase.start⟩]⟩

/-- A pre-phase environment with a fresh cache hit. -/
def eC5hit : PreEnv :=
  ⟨true, false, some ⟨10, 20, "sha256"⟩, some ⟨10, 20⟩, "sha256"⟩

/-- A pre-phase environment with a stale cache hit (mtime differs): the
worker performed a `stat()` and then falls back to fresh parsing. -/
def eC7 : PreEnv :=
  ⟨true, false, some ⟨11, 20, "sha256"⟩, some ⟨10, 20⟩, "sha256"⟩

/-- A run is over when every task invocation has returned. -/
def Terminal (s : DumperState) : Prop :=
  ∀ pr ∈ s.procs, pr.ph = Phase.done

/- ------------------------------------------------------------------ -/
/- Helper lemmas: admission test, intervals, held-id accounting.       -/
/- ------------------------------------------------------------------ -/

lemma tryBufferTask_some_iff {p : RunEnv} {a : Nat} {q : List BufferedTask}
    {i : Nat} {res : cr_XmlStruct} {buf2 : List BufferedTask} :
    tryBufferTask p a q i res = some buf2 ↔
      ((q.length < MAX_TASK_BUFFER_LEN ∧ a ≠ i ∧ p.package_count > i + 1)
        ∧ buf2 = bufInsert ⟨i, res⟩ q) := by
  unfold tryBufferTask
  by_cases h : q.length < MAX_TASK_BUFFER_LEN ∧ a ≠ i ∧ p.package_count > i + 1
  · simp [h, eq_comm]
  · simp [h]

lemma tryBufferTask_none_iff {p : RunEnv} {a : Nat} {q : List BufferedTask}
    {i : Nat} {res : cr_XmlStruct} :
    tryBufferTask p a q i res = none ↔
      ¬ (q.length < MAX_TASK_BUFFER_LEN ∧ a ≠ i ∧ p.package_count > i + 1) := by
  unfold tryBufferTask
  by_cases h : q.length < MAX_TASK_BUFFER_LEN ∧ a ≠ i ∧ p.package_count > i + 1
  · simp [h]
  · simp [h]

lemma mem_idsFrom {x a b : Nat} : x ∈ idsFrom a b ↔ a ≤ x ∧ x < b := by
  unfold idsFrom
  rw [Multiset.mem_coe, List.mem_range']
  constructor
  · rintro ⟨i, hi, rfl⟩
    omega
  · rintro ⟨h1, h2⟩
    exact ⟨x - a, by omega, by omega⟩

lemma idsFrom_cons {a b : Nat} (h : a < b) : idsFrom a b = a ::ₘ idsFrom (a + 1) b := by
  unfold idsFrom
  have h2 : b - a = (b - (a + 1)) + 1 := by omega
  rw [h2, List.range'_succ]
  exact (Multiset.cons_coe _ _).symm

lemma idsFrom_zero_of_le {a b : Nat} (h : b ≤ a) : idsFrom a b = 0 := by
  unfold idsFrom
  have h2 : b - a = 0 := by omega
  rw [h2]
  rfl

lemma le_of_idsFrom_eq_zero {a b : Nat} (h : idsFrom a b = 0) : b ≤ a := by
  by_contra hc
  have hm : a ∈ idsFrom a b := mem_idsFrom.mpr ⟨Nat.le_refl a, by omega⟩
  rw [h] at hm
  exact Multiset.not_mem_zero a hm

lemma heldM_append (f : Proc → List Nat) (l₁ l₂ : List Proc) :
    heldM f (l₁ ++ l₂) = heldM f l₁ + heldM f l₂ := by
  induction l₁ with
  | nil => simp [heldM]
  | cons a t ih => simp [heldM, ih, add_assoc]

lemma heldM_append_cons (f : Proc → List Nat) (l₁ l₂ : List Proc) (pr : Proc) :
    heldM f (l₁ ++ pr :: l₂) = ↑(f pr) + (heldM f l₁ + heldM f l₂) := by
  rw [heldM_append, show heldM f (pr :: l₂) = ↑(f pr) + heldM f l₂ from rfl, add_left_comm]

lemma heldM_eq_zero {f : Proc → List Nat} {l : List Proc} (h : ∀ pr ∈ l, f pr = []) :
    heldM f l = 0 := by
  induction l with
  | nil => rfl
  | cons a t ih =>
      have ha : f a = [] := h a (by simp)
      have ht : heldM f t = 0 := ih fun pr hpr => h pr (by simp [hpr])
      simp [heldM, ha, ht]

lemma bufIds_cons (b : BufferedTask) (q : List BufferedTask) :
    bufIds (b :: q) = b.id ::ₘ bufIds q := by
  unfold bufIds
  rw [List.map_cons]
  exact (Multiset.cons_coe _ _).symm

lemma bufIds_insert (b : BufferedTask) (q : List BufferedTask) :
    bufIds (bufInsert b q) = b.id ::ₘ bufIds q := by
  unfold bufIds bufInsert
  have hperm : List.Perm ((List.orderedInsert bufLE b q).map BufferedTask.id)
      ((b :: q).map BufferedTask.id) :=
    (List.perm_orderedInsert bufLE b q).map BufferedTask.id
  rw [Multiset.coe_eq_coe.mpr hperm, List.map_cons]
  exact (Multiset.cons_coe _ _).symm

lemma mem_bufInsert {x b : BufferedTask} {q : List BufferedTask} :
    x ∈ bufInsert b q ↔ x = b ∨ x ∈ q := by
  unfold bufInsert
  rw [(List.perm_orderedInsert bufLE b q).mem_iff, List.mem_cons]

lemma mem_bufIds {b : BufferedTask} {q : List BufferedTask} (hb : b ∈ q) :
    b.id ∈ bufIds q := by
  unfold bufIds
  rw [Multiset.mem_coe, List.mem_map]
  exact ⟨b, hb, rfl⟩

lemma mem_heldM_append_cons {f : Proc → List Nat} {l₁ l₂ : List Proc} {pr : Proc} {x : Nat}
    (hx : x ∈ f pr) : x ∈ heldM f (l₁ ++ pr :: l₂) := by
  rw [heldM_append_cons]
  exact Multiset.mem_add.mpr (Or.inl (Multiset.mem_coe.mpr hx))

lemma acc_bound (x : Nat) {f : Proc → List Nat} {l₁ l₂ : List Proc} {pr : Proc}
    {buf : Multiset Nat} {a n : Nat}
    (hx : x ∈ f pr)
    (h : heldM f (l₁ ++ pr :: l₂) + buf = idsFrom a n) :
    a ≤ x ∧ x < n := by
  have hm : x ∈ idsFrom a n := by
    rw [← h]
    exact Multiset.mem_add.mpr (Or.inl (mem_heldM_append_cons hx))
  exact mem_idsFrom.mp hm

lemma acc_buf_bound (b : BufferedTask) {f : Proc → List Nat} {procs : List Proc}
    {q : List BufferedTask} {a n : Nat}
    (hb : b ∈ q) (h : heldM f procs + bufIds q = idsFrom a n) :
    a ≤ b.id ∧ b.id < n := by
  have hm : b.id ∈ idsFrom a n := by
    rw [← h]
    exact Multiset.mem_add.mpr (Or.inr (mem_bufIds hb))
  exact mem_idsFrom.mp hm

lemma acc_same {f : Proc → List Nat} {l₁ l₂ : List Proc} {prOld prNew : Proc}
    {buf : Multiset Nat} {a n : Nat}
    (h : heldM f (l₁ ++ prOld :: l₂) + buf = idsFrom a n)
    (hf : f prNew = f prOld) :
    heldM f (l₁ ++ prNew :: l₂) + buf = idsFrom a n := by
  rw [heldM_append_cons] at h ⊢
  rw [hf]
  exact h

lemma acc_advance {f : Proc → List Nat} {l₁ l₂ : List Proc} {prOld prNew : Proc}
    {buf : Multiset Nat} {j n : Nat}
    (h : heldM f (l₁ ++ prOld :: l₂) + buf = idsFrom j n)
    (hOld : f prOld = [j]) (hNew : f prNew = []) :
    heldM f (l₁ ++ prNew :: l₂) + buf = idsFrom (j + 1) n := by
  have hj : j < n := (acc_bound j (by simp [hOld]) h).2
  rw [heldM_append_cons, hOld] at h
  rw [heldM_append_cons, hNew, Multiset.coe_nil, zero_add]
  rw [idsFrom_cons hj] at h
  rw [Multiset.coe_singleton, add_assoc, Multiset.singleton_add] at h
  exact (Multiset.cons_inj_right j).mp h

lemma acc_defer {f : Proc → List Nat} {l₁ l₂ : List Proc} {prOld prNew : Proc}
    {q : List BufferedTask} {b : BufferedTask} {a n : Nat}
    (h : heldM f (l₁ ++ prOld :: l₂) + bufIds q = idsFrom a n)
    (hOld : f prOld = [b.id]) (hNew : f prNew = []) :
    heldM f (l₁ ++ prNew :: l₂) + bufIds (bufInsert b q) = idsFrom a n := by
  rw [heldM_append_cons, hOld, Multiset.coe_singleton] at h
  rw [heldM_append_cons, hNew, Multiset.coe_nil, zero_add, bufIds_insert, ← h,
    ← Multiset.singleton_add]
  abel

lemma acc_pop {f : Proc → List Nat} {l₁ l₂ : List Proc} {prOld prNew : Proc}
    {b : BufferedTask} {rest : List BufferedTask} {a n : Nat}
    (h : heldM f (l₁ ++ prOld :: l₂) + bufIds (b :: rest) = idsFrom a n)
    (hOld : f prOld = []) (hNew : f prNew = [b.id]) :
    heldM f (l₁ ++ prNew :: l₂) + bufIds rest = idsFrom a n := by
  rw [heldM_append_cons, hOld, Multiset.coe_nil, zero_add, bufIds_cons,
    ← Multiset.singleton_add] at h
  rw [heldM_append_cons, hNew, Multiset.coe_singleton, ← h]
  abel

/- ------------------------------------------------------------------ -/
/- Well-formedness transport.                                          -/
/- ------------------------------------------------------------------ -/

lemma ProcWF_mono {p : RunEnv} {aP aF aP' aF' : Nat} {pr : Proc}
    (hP : aP ≤ aP') (hF : aF ≤ aF') (h : ProcWF p aP aF pr) :
    ProcWF p aP' aF' pr := by
  obtain ⟨tid, ph⟩ := pr
  cases ph with
  | start => trivial
  | atBufferCheck res => exact h
  | writing j res st m =>
      obtain ⟨h1, h2, h3, h4, h5⟩ := h
      exact ⟨h1, h2, h3, fun hst => Nat.lt_of_lt_of_le (h4 hst) hP,
        fun hst => ⟨Nat.lt_of_lt_of_le ((h5 hst).1) hP, Nat.lt_of_lt_of_le ((h5 hst).2) hF⟩⟩
  | atCleanupCheck => exact fun hs => Nat.lt_of_lt_of_le (h hs) hP
  | skipping st =>
      obtain ⟨h1, h2, h3⟩ := h
      exact ⟨h1, fun hst => Nat.lt_of_lt_of_le (h2 hst) hP,
        fun hst => ⟨Nat.lt_of_lt_of_le ((h3 hst).1) hP, Nat.lt_of_lt_of_le ((h3 hst).2) hF⟩⟩
  | atDrain => trivial
  | done => trivial

lemma mem_mid {α : Type} (a : α) (l₁ l₂ : List α) : a ∈ l₁ ++ a :: l₂ := by
  simp

lemma wf_frame {p : RunEnv} {aP aF aP' aF' : Nat} {l₁ l₂ : List Proc} {prOld prNew : Proc}
    (hP : aP ≤ aP') (hF : aF ≤ aF')
    (hold : ∀ pr ∈ l₁ ++ prOld :: l₂, ProcWF p aP aF pr)
    (hnew : ProcWF p aP' aF' prNew) :
    ∀ pr ∈ l₁ ++ prNew :: l₂, ProcWF p aP' aF' pr := by
  intro pr hpr
  rcases List.mem_append.mp hpr with h1 | h1
  · exact ProcWF_mono hP hF (hold pr (List.mem_append.mpr (Or.inl h1)))
  · rcases List.mem_cons.mp h1 with rfl | h1
    · exact hnew
    · exact ProcWF_mono hP hF (hold pr (List.mem_append.mpr (Or.inr (List.mem_cons.mpr (Or.inr h1)))))

lemma active_witness_mid {l₁ l₂ : List Proc} {prNew : Proc}
    (h : isActive prNew.ph = true) :
    ∃ pr ∈ l₁ ++ prNew :: l₂, isActive pr.ph = true :=
  ⟨prNew, mem_mid prNew l₁ l₂, h⟩

lemma active_witness_transport {l₁ l₂ : List Proc} {prOld prNew : Proc}
    (h : ∃ pr ∈ l₁ ++ prOld :: l₂, isActive pr.ph = true)
    (hOld : isActive prOld.ph = false) :
    ∃ pr ∈ l₁ ++ prNew :: l₂, isActive pr.ph = true := by
  obtain ⟨x, hx, hact⟩ := h
  rcases List.mem_append.mp hx with h1 | h1
  · exact ⟨x, List.mem_append.mpr (Or.inl h1), hact⟩
  · rcases List.mem_cons.mp h1 with rfl | h1
    · rw [hOld] at hact
      cases hact
    · exact ⟨x, List.mem_append.mpr (Or.inr (List.mem_cons.mpr (Or.inr h1))), hact⟩

lemma serialRef_succ_true {p : RunEnv} {proj : cr_XmlStruct → String} {k : Nat}
    (h : p.success k = true) :
    serialRef p proj (k + 1) = serialRef p proj k ++ [proj (p.xml_dump k)] := by
  simp [serialRef, h]

lemma serialRef_succ_false {p : RunEnv} {proj : cr_XmlStruct → String} {k : Nat}
    (h : p.success k = false) :
    serialRef p proj (k + 1) = serialRef p proj k := by
  simp [serialRef, h]

/- ------------------------------------------------------------------ -/
/- The invariant holds initially.                                      -/
/- ------------------------------------------------------------------ -/

lemma heldM_init {f : Proc → List Nat} (hf : ∀ i : Nat, f ⟨i, Phase.start⟩ = [i]) :
    ∀ l : List Nat, heldM f (l.map fun i => ⟨i, Phase.start⟩) = ↑l := by
  intro l
  induction l with
  | nil => rfl
  | cons a t ih =>
      rw [List.map_cons]
      show ↑(f ⟨a, Phase.start⟩) + heldM f (t.map fun i => ⟨i, Phase.start⟩) = ↑(a :: t)
      rw [hf, ih, Multiset.coe_singleton, Multiset.singleton_add]
      exact Multiset.cons_coe _ _

lemma inv_init (p : RunEnv) : Inv p (initState p) := by
  have hids : idsFrom 0 p.package_count = ↑(List.range p.package_count) := by
    unfold idsFrom
    rw [Nat.sub_zero, List.range_eq_range']
  refine ⟨?_, ?_, ?_, rfl, rfl, rfl, ?_, ?_, ?_, ?_, ?_, ?_, ?_, ?_⟩
  · show heldM (heldPriL p) ((List.range p.package_count).map fun i => ⟨i, Phase.start⟩)
        + bufIds [] = idsFrom 0 p.package_count
    rw [heldM_init (fun i => rfl), hids]
    show (↑(List.range p.package_count) : Multiset Nat) + bufIds [] = ↑(List.range p.package_count)
    rw [show bufIds [] = 0 from rfl, add_zero]
  · show heldM (heldFilL p) ((List.range p.package_count).map fun i => ⟨i, Phase.start⟩)
        + bufIds [] = idsFrom 0 p.package_count
    rw [heldM_init (fun i => rfl), hids]
    show (↑(List.range p.package_count) : Multiset Nat) + bufIds [] = ↑(List.range p.package_count)
    rw [show bufIds [] = 0 from rfl, add_zero]
  · show heldM (heldOthL p) ((List.range p.package_count).map fun i => ⟨i, Phase.start⟩)
        + bufIds [] = idsFrom 0 p.package_count
    rw [heldM_init (fun i => rfl), hids]
    show (↑(List.range p.package_count) : Multiset Nat) + bufIds [] = ↑(List.range p.package_count)
    rw [show bufIds [] = 0 from rfl, add_zero]
  · intro pr hpr
    obtain ⟨i, _, rfl⟩ := List.mem_map.mp hpr
    trivial
  · intro b hb
    cases hb
  · exact List.sorted_nil
  · exact Nat.zero_le _
  · rintro ⟨b, hb, _⟩
    cases hb
  · exact Nat.zero_le _
  · exact Nat.zero_le _
  · exact Nat.zero_le _

/- ------------------------------------------------------------------ -/
/- Preservation of the invariant by every step.                        -/
/- ------------------------------------------------------------------ -/

set_option maxHeartbeats 1000000 in
lemma inv_step {p : RunEnv} {s s' : DumperState} (hst : Step p s s') (hinv : Inv p s) :
    Inv p s' := by
  obtain ⟨haccP, haccF, haccO, houtP, houtF, houtO, hwf, hbwf, hbs, hbl, hprog,
    hple, hfle, hole⟩ := hinv
  cases hst with
  | prep_ok l₁ l₂ i hp hs =>
      rw [hp] at haccP haccF haccO hwf hprog
      refine ⟨acc_same haccP rfl, acc_same haccF rfl, acc_same haccO rfl,
        houtP, houtF, houtO, ?_, hbwf, hbs, hbl, ?_, hple, hfle, hole⟩
      · exact wf_frame (Nat.le_refl _) (Nat.le_refl _) hwf ⟨hs, rfl⟩
      · intro hb
        exact active_witness_transport (hprog hb) rfl
  | prep_fail l₁ l₂ i hp hs =>
      rw [hp] at haccP haccF haccO hwf
      refine ⟨acc_same haccP (by simp [heldPriL, hs]),
        acc_same haccF (by simp [heldFilL, hs]),
        acc_same haccO (by simp [heldOthL, hs]),
        houtP, houtF, houtO, ?_, hbwf, hbs, hbl, ?_, hple, hfle, hole⟩
      · refine wf_frame (Nat.le_refl _) (Nat.le_refl _) hwf ?_
        intro h
        rw [hs] at h
        cases h
      · intro _
        exact active_witness_mid rfl
  | buffer_defer l₁ l₂ i res buf2 hp ht =>
      obtain ⟨⟨hlen, hne, hlast⟩, hbuf2⟩ := tryBufferTask_some_iff.mp ht
      subst hbuf2
      rw [hp] at haccP haccF haccO hwf hprog
      have hmid := hwf _ (mem_mid ⟨i, Phase.atBufferCheck res⟩ l₁ l₂)
      obtain ⟨hsucc, hres⟩ := hmid
      refine ⟨acc_defer haccP rfl rfl, acc_defer haccF rfl rfl, acc_defer haccO rfl rfl,
        houtP, houtF, houtO, ?_, ?_, ?_, ?_, ?_, hple, hfle, hole⟩
      · exact wf_frame (Nat.le_refl _) (Nat.le_refl _) hwf trivial
      · intro b hb
        rcases mem_bufInsert.mp hb with rfl | hb
        · exact ⟨hsucc, hres, hlast⟩
        · exact hbwf b hb
      · exact List.Sorted.orderedInsert ⟨i, res⟩ s.buffer hbs
      · show (bufInsert ⟨i, res⟩ s.buffer).length ≤ MAX_TASK_BUFFER_LEN
        unfold bufInsert
        rw [List.orderedInsert_length]
        omega
      · rintro ⟨b, hb, hbid⟩
        rcases mem_bufInsert.mp hb with rfl | hb
        · exact absurd hbid.symm hne
        · exact active_witness_transport (hprog ⟨b, hb, hbid⟩) rfl
  | buffer_pass l₁ l₂ i res hp ht =>
      rw [hp] at haccP haccF haccO hwf
      have hmid := hwf _ (mem_mid ⟨i, Phase.atBufferCheck res⟩ l₁ l₂)
      obtain ⟨hsucc, hres⟩ := hmid
      refine ⟨acc_same haccP rfl, acc_same haccF rfl, acc_same haccO rfl,
        houtP, houtF, houtO, ?_, hbwf, hbs, hbl, ?_, hple, hfle, hole⟩
      · exact wf_frame (Nat.le_refl _) (Nat.le_refl _) hwf
          ⟨hsucc, hres, fun _ => rfl, fun h => StreamStage.noConfusion h,
            fun h => StreamStage.noConfusion h⟩
      · intro _
        exact active_witness_mid rfl
  | write_pri l₁ l₂ i j res m hp hw =>
      subst hw
      rw [hp] at haccP haccF haccO hwf
      have hmid := hwf _ (mem_mid ⟨i, Phase.writing s.id_pri res StreamStage.pri m⟩ l₁ l₂)
      obtain ⟨h1, h2, h3, _, _⟩ := hmid
      have hjN : s.id_pri < p.package_count :=
        (acc_bound s.id_pri (by simp [heldPriL]) haccP).2
      refine ⟨acc_advance haccP rfl rfl, acc_same haccF rfl, acc_same haccO rfl,
        ?_, houtF, houtO, ?_, hbwf, hbs, hbl, ?_, (show s.id_pri + 1 ≤ p.package_count by omega), hfle, hole⟩
      · show s.out_pri ++ [res.primary] = serialRef p cr_XmlStruct.primary (s.id_pri + 1)
        rw [serialRef_succ_true h1, houtP, h2]
      · exact wf_frame (Nat.le_succ _) (Nat.le_refl _) hwf
          ⟨h1, h2, h3, fun _ => Nat.lt_succ_self _, fun h => StreamStage.noConfusion h⟩
      · intro _
        exact active_witness_mid rfl
  | write_fil l₁ l₂ i j res m hp hw =>
      subst hw
      rw [hp] at haccP haccF haccO hwf
      have hmid := hwf _ (mem_mid ⟨i, Phase.writing s.id_fil res StreamStage.fil m⟩ l₁ l₂)
      obtain ⟨h1, h2, h3, h4, _⟩ := hmid
      have hjN : s.id_fil < p.package_count :=
        (acc_bound s.id_fil (by simp [heldFilL]) haccF).2
      refine ⟨acc_same haccP rfl, acc_advance haccF rfl rfl, acc_same haccO rfl,
        houtP, ?_, houtO, ?_, hbwf, hbs, hbl, ?_, hple, (show s.id_fil + 1 ≤ p.package_count by omega), hole⟩
      · show s.out_fil ++ [res.filelists] = serialRef p cr_XmlStruct.filelists (s.id_fil + 1)
        rw [serialRef_succ_true h1, houtF, h2]
      · exact wf_frame (Nat.le_refl _) (Nat.le_succ _) hwf
          ⟨h1, h2, h3, fun h => StreamStage.noConfusion h, fun _ => ⟨h4 rfl, Nat.lt_succ_self _⟩⟩
      · intro _
        exact active_witness_mid rfl
  | write_oth_own l₁ l₂ i j res hp hw =>
      subst hw
      rw [hp] at haccP haccF haccO hwf
      have hmid := hwf _
        (mem_mid ⟨i, Phase.writing s.id_oth res StreamStage.oth WriteMode.own⟩ l₁ l₂)
      obtain ⟨h1, h2, h3, h4, h5⟩ := hmid
      have hji : s.id_oth = i := h3 rfl
      have hsi : p.success i = true := by rw [← hji]; exact h1
      have hjN : s.id_oth < p.package_count :=
        (acc_bound s.id_oth (by simp [heldOthL]) haccO).2
      refine ⟨acc_same haccP (by simp [heldPriL, hsi]),
        acc_same haccF (by simp [heldFilL, hsi]),
        acc_advance haccO rfl (by simp [heldOthL, hsi]),
        houtP, houtF, ?_, ?_, hbwf, hbs, hbl, ?_, hple, hfle, (show s.id_oth + 1 ≤ p.package_count by omega)⟩
      · show s.out_oth ++ [res.other] = serialRef p cr_XmlStruct.other (s.id_oth + 1)
        rw [serialRef_succ_true h1, houtO, h2]
      · refine wf_frame (Nat.le_refl _) (Nat.le_refl _) hwf ?_
        intro _
        rw [← hji]
        exact (h5 rfl).1
      · intro _
        exact active_witness_mid rfl
  | write_oth_drained l₁ l₂ i j res hp hw =>
      subst hw
      rw [hp] at haccP haccF haccO hwf
      have hmid := hwf _
        (mem_mid ⟨i, Phase.writing s.id_oth res StreamStage.oth WriteMode.drained⟩ l₁ l₂)
      obtain ⟨h1, h2, _, _, _⟩ := hmid
      have hjN : s.id_oth < p.package_count :=
        (acc_bound s.id_oth (by simp [heldOthL]) haccO).2
      refine ⟨acc_same haccP rfl, acc_same haccF rfl, acc_advance haccO rfl rfl,
        houtP, houtF, ?_, ?_, hbwf, hbs, hbl, ?_, hple, hfle, (show s.id_oth + 1 ≤ p.package_count by omega)⟩
      · show s.out_oth ++ [res.other] = serialRef p cr_XmlStruct.other (s.id_oth + 1)
        rw [serialRef_succ_true h1, houtO, h2]
      · exact wf_frame (Nat.le_refl _) (Nat.le_refl _) hwf trivial
      · intro _
        exact active_witness_mid rfl
  | cleanup_skip l₁ l₂ i hp hc =>
      rw [hp] at haccP haccF haccO hwf
      have hmid := hwf _ (mem_mid ⟨i, Phase.atCleanupCheck⟩ l₁ l₂)
      cases hsi : p.success i with
      | true =>
          have hlt : i < s.id_pri := hmid hsi
          exact absurd hlt (by omega)
      | false =>
          refine ⟨acc_same haccP (by simp [heldPriL, hsi]),
            acc_same haccF (by simp [heldFilL, hsi]),
            acc_same haccO (by simp [heldOthL, hsi]),
            houtP, houtF, houtO, ?_, hbwf, hbs, hbl, ?_, hple, hfle, hole⟩
          · exact wf_frame (Nat.le_refl _) (Nat.le_refl _) hwf
              ⟨hsi, fun h => StreamStage.noConfusion h, fun h => StreamStage.noConfusion h⟩
          · intro _
            exact active_witness_mid rfl
  | cleanup_noskip l₁ l₂ i hp hc =>
      rw [hp] at haccP haccF haccO hwf
      cases hsi : p.success i with
      | false =>
          have hb := (acc_bound i (by simp [heldPriL, hsi]) haccP).1
          exact absurd hb hc
      | true =>
          refine ⟨acc_same haccP (by simp [heldPriL, hsi]),
            acc_same haccF (by simp [heldFilL, hsi]),
            acc_same haccO (by simp [heldOthL, hsi]),
            houtP, houtF, houtO, ?_, hbwf, hbs, hbl, ?_, hple, hfle, hole⟩
          · exact wf_frame (Nat.le_refl _) (Nat.le_refl _) hwf trivial
          · intro _
            exact active_witness_mid rfl
  | skip_pri l₁ l₂ i hp hw =>
      subst hw
      rw [hp] at haccP haccF haccO hwf
      have hmid := hwf _ (mem_mid ⟨s.id_pri, Phase.skipping StreamStage.pri⟩ l₁ l₂)
      obtain ⟨hfail, _, _⟩ := hmid
      have hjN : s.id_pri < p.package_count :=
        (acc_bound s.id_pri (by simp [heldPriL]) haccP).2
      refine ⟨acc_advance haccP rfl rfl, acc_same haccF rfl, acc_same haccO rfl,
        ?_, houtF, houtO, ?_, hbwf, hbs, hbl, ?_, (show s.id_pri + 1 ≤ p.package_count by omega), hfle, hole⟩
      · show s.out_pri = serialRef p cr_XmlStruct.primary (s.id_pri + 1)
        rw [serialRef_succ_false hfail, houtP]
      · exact wf_frame (Nat.le_succ _) (Nat.le_refl _) hwf
          ⟨hfail, fun _ => Nat.lt_succ_self _, fun h => StreamStage.noConfusion h⟩
      · intro _
        exact active_witness_mid rfl
  | skip_fil l₁ l₂ i hp hw =>
      subst hw
      rw [hp] at haccP haccF haccO hwf
      have hmid := hwf _ (mem_mid ⟨s.id_fil, Phase.skipping StreamStage.fil⟩ l₁ l₂)
      obtain ⟨hfail, hpri, _⟩ := hmid
      have hjN : s.id_fil < p.package_count :=
        (acc_bound s.id_fil (by simp [heldFilL]) haccF).2
      refine ⟨acc_same haccP rfl, acc_advance haccF rfl rfl, acc_same haccO rfl,
        houtP, ?_, houtO, ?_, hbwf, hbs, hbl, ?_, hple, (show s.id_fil + 1 ≤ p.package_count by omega), hole⟩
      · show s.out_fil = serialRef p cr_XmlStruct.filelists (s.id_fil + 1)
        rw [serialRef_succ_false hfail, houtF]
      · exact wf_frame (Nat.le_refl _) (Nat.le_succ _) hwf
          ⟨hfail, fun h => StreamStage.noConfusion h, fun _ => ⟨hpri rfl, Nat.lt_succ_self _⟩⟩
      · intro _
        exact active_witness_mid rfl
  | skip_oth l₁ l₂ i hp hw =>
      subst hw
      rw [hp] at haccP haccF haccO hwf
      have hmid := hwf _ (mem_mid ⟨s.id_oth, Phase.skipping StreamStage.oth⟩ l₁ l₂)
      obtain ⟨hfail, _, _⟩ := hmid
      have hjN : s.id_oth < p.package_count :=
        (acc_bound s.id_oth (by simp [heldOthL]) haccO).2
      refine ⟨acc_same haccP rfl, acc_same haccF rfl, acc_advance haccO rfl rfl,
        houtP, houtF, ?_, ?_, hbwf, hbs, hbl, ?_, hple, hfle, (show s.id_oth + 1 ≤ p.package_count by omega)⟩
      · show s.out_oth = serialRef p cr_XmlStruct.other (s.id_oth + 1)
        rw [serialRef_succ_false hfail, houtO]
      · exact wf_frame (Nat.le_refl _) (Nat.le_refl _) hwf trivial
      · intro _
        exact active_witness_mid rfl
  | drain_pop l₁ l₂ i b rest hp hb hr =>
      rw [hp] at haccP haccF haccO hwf
      rw [hb] at haccP haccF haccO hbwf hbs hbl
      obtain ⟨hsuc, hres, _⟩ := hbwf b (List.mem_cons_self b rest)
      refine ⟨acc_pop haccP rfl rfl, acc_pop haccF rfl rfl, acc_pop haccO rfl rfl,
        houtP, houtF, houtO, ?_, ?_, List.Sorted.of_cons hbs, ?_, ?_, hple, hfle, hole⟩
      · exact wf_frame (Nat.le_refl _) (Nat.le_refl _) hwf
          ⟨hsuc, hres, fun h => WriteMode.noConfusion h, fun h => StreamStage.noConfusion h,
            fun h => StreamStage.noConfusion h⟩
      · intro b' hb'
        exact hbwf b' (List.mem_cons_of_mem b hb')
      · show rest.length ≤ MAX_TASK_BUFFER_LEN
        simp only [List.length_cons] at hbl
        omega
      · intro _
        exact active_witness_mid rfl
  | drain_exit_empty l₁ l₂ i hp hb =>
      rw [hp] at haccP haccF haccO hwf
      refine ⟨acc_same haccP rfl, acc_same haccF rfl, acc_same haccO rfl,
        houtP, houtF, houtO, ?_, hbwf, hbs, hbl, ?_, hple, hfle, hole⟩
      · exact wf_frame (Nat.le_refl _) (Nat.le_refl _) hwf trivial
      · rintro ⟨b, hbm, _⟩
        rw [hb] at hbm
        cases hbm
  | drain_exit_notready l₁ l₂ i b rest hp hb hr =>
      rw [hp] at haccP haccF haccO hwf
      refine ⟨acc_same haccP rfl, acc_same haccF rfl, acc_same haccO rfl,
        houtP, houtF, houtO, ?_, hbwf, hbs, hbl, ?_, hple, hfle, hole⟩
      · exact wf_frame (Nat.le_refl _) (Nat.le_refl _) hwf trivial
      · rintro ⟨b', hb', hbid⟩
        have hble : s.id_pri ≤ b.id := by
          refine (acc_buf_bound b ?_ haccP).1
          rw [hb]
          exact List.mem_cons_self b rest
        have hsort := hbs
        rw [hb] at hsort
        rw [hb] at hb'
        rcases List.mem_cons.mp hb' with rfl | h2
        · exact absurd hbid hr
        · have hmin : bufLE b b' := (List.sorted_cons.mp hsort).1 b' h2
          unfold bufLE at hmin
          have hbid2 : b'.id = s.id_pri := hbid
          omega

/- ------------------------------------------------------------------ -/
/- Reachable states satisfy the invariant; terminal states are final.  -/
/- ------------------------------------------------------------------ -/

lemma reach_inv {p : RunEnv} {s : DumperState} (h : Reach p s) : Inv p s := by
  unfold Reach at h
  induction h with
  | refl => exact inv_init p
  | tail hab hbc ih => exact inv_step hbc ih

lemma terminal_final {p : RunEnv} {s : DumperState} (hinv : Inv p s) (hdone : Terminal s) :
    s.id_pri = p.package_count ∧ s.id_fil = p.package_count ∧
      s.id_oth = p.package_count ∧ s.buffer = [] := by
  have hheld : ∀ f : Proc → List Nat, (∀ i : Nat, f ⟨i, Phase.done⟩ = []) →
      heldM f s.procs = 0 := by
    intro f hf
    refine heldM_eq_zero fun pr hpr => ?_
    obtain ⟨tid, ph⟩ := pr
    have hph : ph = Phase.done := hdone ⟨tid, ph⟩ hpr
    subst hph
    exact hf tid
  have hPz : heldM (heldPriL p) s.procs = 0 := hheld _ fun i => rfl
  have hbufids : bufIds s.buffer = idsFrom s.id_pri p.package_count := by
    have h := hinv.acc_pri
    rw [hPz, zero_add] at h
    exact h
  have hpriN : s.id_pri = p.package_count := by
    by_contra hne
    have hlt : s.id_pri < p.package_count := Nat.lt_of_le_of_ne hinv.pri_le hne
    have hmem : s.id_pri ∈ bufIds s.buffer := by
      rw [hbufids]
      exact mem_idsFrom.mpr ⟨Nat.le_refl _, hlt⟩
    unfold bufIds at hmem
    rw [Multiset.mem_coe, List.mem_map] at hmem
    obtain ⟨b, hb, hbid⟩ := hmem
    obtain ⟨pr, hpr, hactive⟩ := hinv.prog ⟨b, hb, hbid⟩
    rw [hdone pr hpr] at hactive
    cases hactive
  have hbuf : s.buffer = [] := by
    rw [hpriN, idsFrom_zero_of_le (Nat.le_refl _)] at hbufids
    unfold bufIds at hbufids
    have h2 := (Multiset.coe_eq_zero _).mp hbufids
    exact List.map_eq_nil_iff.mp h2
  have hFz : heldM (heldFilL p) s.procs = 0 := hheld _ fun i => rfl
  have hOz : heldM (heldOthL p) s.procs = 0 := hheld _ fun i => rfl
  have hfilN : s.id_fil = p.package_count := by
    have h := hinv.acc_fil
    rw [hFz, hbuf, zero_add] at h
    have h0 : idsFrom s.id_fil p.package_count = 0 := by
      rw [← h]
      rfl
    have := le_of_idsFrom_eq_zero h0
    have := hinv.fil_le
    omega
  have hothN : s.id_oth = p.package_count := by
    have h := hinv.acc_oth
    rw [hOz, hbuf, zero_add] at h
    have h0 : idsFrom s.id_oth p.package_count = 0 := by
      rw [← h]
      rfl
    have := le_of_idsFrom_eq_zero h0
    have := hinv.oth_le
    omega
  exact ⟨hpriN, hfilN, hothN, hbuf⟩

/-- Combined endpoint facts of any completed run: counters and outputs. -/
lemma run_complete {p : RunEnv} {s : DumperState} (h : Reach p s) (hdone : Terminal s) :
    s.id_pri = p.package_count ∧ s.id_fil = p.package_count ∧
      s.id_oth = p.package_count ∧
      s.out_pri = serialRef p cr_XmlStruct.primary p.package_count ∧
      s.out_fil = serialRef p cr_XmlStruct.filelists p.package_count ∧
      s.out_oth = serialRef p cr_XmlStruct.other p.package_count := by
  have hinv := reach_inv h
  obtain ⟨h1, h2, h3, _⟩ := terminal_final hinv hdone
  refine ⟨h1, h2, h3, ?_, ?_, ?_⟩
  · rw [← h1]
    exact hinv.out_pri
  · rw [← h2]
    exact hinv.out_fil
  · rw [← h3]
    exact hinv.out_oth

lemma serialRef_length (p : RunEnv) (proj : cr_XmlStruct → String) :
    ∀ k, (serialRef p proj k).length = successCount p k := by
  intro k
  induction k with
  | zero => rfl
  | succ n ih =>
      cases hs : p.success n with
      | true => simp [serialRef, successCount, hs, ih]
      | false => simp [serialRef, successCount, hs, ih]

/- ------------------------------------------------------------------ -/
/- Concrete executions.                                                -/
/- ------------------------------------------------------------------ -/

lemma reach_demoC8 : Reach pDemo demoC8 := by
  have s1 : Step pDemo (initState pDemo)
      ⟨0, 0, 0, [], [], [], [],
       [⟨0, Phase.atBufferCheck ⟨"p", "f", "o"⟩⟩, ⟨1, Phase.start⟩]⟩ :=
    Step.prep_ok _ [] [⟨1, Phase.start⟩] 0 rfl rfl
  have s2 : Step pDemo
      ⟨0, 0, 0, [], [], [], [],
       [⟨0, Phase.atBufferCheck ⟨"p", "f", "o"⟩⟩, ⟨1, Phase.start⟩]⟩
      ⟨0, 0, 0, [], [], [], [],
       [⟨0, Phase.atBufferCheck ⟨"p", "f", "o"⟩⟩, ⟨1, Phase.atBufferCheck ⟨"p", "f", "o"⟩⟩]⟩ :=
    Step.prep_ok _ [⟨0, Phase.atBufferCheck ⟨"p", "f", "o"⟩⟩] [] 1 rfl rfl
  have s3 : Step pDemo
      ⟨0, 0, 0, [], [], [], [],
       [⟨0, Phase.atBufferCheck ⟨"p", "f", "o"⟩⟩, ⟨1, Phase.atBufferCheck ⟨"p", "f", "o"⟩⟩]⟩
      ⟨0, 0, 0, [], [], [], [],
       [⟨0, Phase.writing 0 ⟨"p", "f", "o"⟩ StreamStage.pri WriteMode.own⟩,
        ⟨1, Phase.atBufferCheck ⟨"p", "f", "o"⟩⟩]⟩ :=
    Step.buffer_pass _ [] [⟨1, Phase.atBufferCheck ⟨"p", "f", "o"⟩⟩] 0 ⟨"p", "f", "o"⟩
      rfl (by decide)
  have s4 : Step pDemo
      ⟨0, 0, 0, [], [], [], [],
       [⟨0, Phase.writing 0 ⟨"p", "f", "o"⟩ StreamStage.pri WriteMode.own⟩,
        ⟨1, Phase.atBufferCheck ⟨"p", "f", "o"⟩⟩]⟩
      ⟨1, 0, 0, ["p"], [], [], [],
       [⟨0, Phase.writing 0 ⟨"p", "f", "o"⟩ StreamStage.fil WriteMode.own⟩,
        ⟨1, Phase.atBufferCheck ⟨"p", "f", "o"⟩⟩]⟩ :=
    Step.write_pri _ [] [⟨1, Phase.atBufferCheck ⟨"p", "f", "o"⟩⟩] 0 0 ⟨"p", "f", "o"⟩
      WriteMode.own rfl rfl
  have s5 : Step pDemo
      ⟨1, 0, 0, ["p"], [], [], [],
       [⟨0, Phase.writing 0 ⟨"p", "f", "o"⟩ StreamStage.fil WriteMode.own⟩,
        ⟨1, Phase.atBufferCheck ⟨"p", "f", "o"⟩⟩]⟩
      ⟨1, 0, 0, ["p"], [], [], [],
       [⟨0, Phase.writing 0 ⟨"p", "f", "o"⟩ StreamStage.fil WriteMode.own⟩,
        ⟨1, Phase.writing 1 ⟨"p", "f", "o"⟩ StreamStage.pri WriteMode.own⟩]⟩ :=
    Step.buffer_pass _ [⟨0, Phase.writing 0 ⟨"p", "f", "o"⟩ StreamStage.fil WriteMode.own⟩]
      [] 1 ⟨"p", "f", "o"⟩ rfl (by decide)
  have s6 : Step pDemo
      ⟨1, 0, 0, ["p"], [], [], [],
       [⟨0, Phase.writing 0 ⟨"p", "f", "o"⟩ StreamStage.fil WriteMode.own⟩,
        ⟨1, Phase.writing 1 ⟨"p", "f", "o"⟩ StreamStage.pri WriteMode.own⟩]⟩
      demoC8 :=
    Step.write_pri _ [⟨0, Phase.writing 0 ⟨"p", "f", "o"⟩ StreamStage.fil WriteMode.own⟩]
      [] 1 1 ⟨"p", "f", "o"⟩ WriteMode.own rfl rfl
  exact Relation.ReflTransGen.head s1 (Relation.ReflTransGen.head s2
    (Relation.ReflTransGen.head s3 (Relation.ReflTransGen.head s4
      (Relation.ReflTransGen.head s5 (Relation.ReflTransGen.single s6)))))

lemma reach_demoFinal : Reach pDemo demoFinal := by
  have s7 : Step pDemo demoC8
      ⟨2, 1, 0, ["p", "p"], ["f"], [], [],
       [⟨0, Phase.writing 0 ⟨"p", "f", "o"⟩ StreamStage.oth WriteMode.own⟩,
        ⟨1, Phase.writing 1 ⟨"p", "f", "o"⟩ StreamStage.fil WriteMode.own⟩]⟩ :=
    Step.write_fil _ [] [⟨1, Phase.writing 1 ⟨"p", "f", "o"⟩ StreamStage.fil WriteMode.own⟩]
      0 0 ⟨"p", "f", "o"⟩ WriteMode.own rfl rfl
  have s8 : Step pDemo
      ⟨2, 1, 0, ["p", "p"], ["f"], [], [],
       [⟨0, Phase.writing 0 ⟨"p", "f", "o"⟩ StreamStage.oth WriteMode.own⟩,
        ⟨1, Phase.writing 1 ⟨"p", "f", "o"⟩ StreamStage.fil WriteMode.own⟩]⟩
      ⟨2, 2, 0, ["p", "p"], ["f", "f"], [], [],
       [⟨0, Phase.writing 0 ⟨"p", "f", "o"⟩ StreamStage.oth WriteMode.own⟩,
        ⟨1, Phase.writing 1 ⟨"p", "f", "o"⟩ StreamStage.oth WriteMode.own⟩]⟩ :=
    Step.write_fil _ [⟨0, Phase.writing 0 ⟨"p", "f", "o"⟩ StreamStage.oth WriteMode.own⟩]
      [] 1 1 ⟨"p", "f", "o"⟩ WriteMode.own rfl rfl
  have s9 : Step pDemo
      ⟨2, 2, 0, ["p", "p"], ["f", "f"], [], [],
       [⟨0, Phase.writing 0 ⟨"p", "f", "o"⟩ StreamStage.oth WriteMode.own⟩,
        ⟨1, Phase.writing 1 ⟨"p", "f", "o"⟩ StreamStage.oth WriteMode.own⟩]⟩
      ⟨2, 2, 1, ["p", "p"], ["f", "f"], ["o"], [],
       [⟨0, Phase.atCleanupCheck⟩,
        ⟨1, Phase.writing 1 ⟨"p", "f", "o"⟩ StreamStage.oth WriteMode.own⟩]⟩ :=
    Step.write_oth_own _ []
      [⟨1, Phase.writing 1 ⟨"p", "f", "o"⟩ StreamStage.oth WriteMode.own⟩]
      0 0 ⟨"p", "f", "o"⟩ rfl rfl
  have s10 : Step pDemo
      ⟨2, 2, 1, ["p", "p"], ["f", "f"], ["o"], [],
       [⟨0, Phase.atCleanupCheck⟩,
        ⟨1, Phase.writing 1 ⟨"p", "f", "o"⟩ StreamStage.oth WriteMode.own⟩]⟩
      ⟨2, 2, 2, ["p", "p"], ["f", "f"], ["o", "o"], [],
       [⟨0, Phase.atCleanupCheck⟩, ⟨1, Phase.atCleanupCheck⟩]⟩ :=
    Step.write_oth_own _ [⟨0, Phase.atCleanupCheck⟩] [] 1 1 ⟨"p", "f", "o"⟩ rfl rfl
  have s11 : Step pDemo
      ⟨2, 2, 2, ["p", "p"], ["f", "f"], ["o", "o"], [],
       [⟨0, Phase.atCleanupCheck⟩, ⟨1, Phase.atCleanupCheck⟩]⟩
      ⟨2, 2, 2, ["p", "p"], ["f", "f"], ["o", "o"], [],
       [⟨0, Phase.atDrain⟩, ⟨1, Phase.atCleanupCheck⟩]⟩ :=
    Step.cleanup_noskip _ [] [⟨1, Phase.atCleanupCheck⟩] 0 rfl (by decide)
  have s12 : Step pDemo
      ⟨2, 2, 2, ["p", "p"], ["f", "f"], ["o", "o"], [],
       [⟨0, Phase.atDrain⟩, ⟨1, Phase.atCleanupCheck⟩]⟩
      ⟨2, 2, 2, ["p", "p"], ["f", "f"], ["o", "o"], [],
       [⟨0, Phase.done⟩, ⟨1, Phase.atCleanupCheck⟩]⟩ :=
    Step.drain_exit_empty _ [] [⟨1, Phase.atCleanupCheck⟩] 0 rfl rfl
  have s13 : Step pDemo
      ⟨2, 2, 2, ["p", "p"], ["f", "f"], ["o", "o"], [],
       [⟨0, Phase.done⟩, ⟨1, Phase.atCleanupCheck⟩]⟩
      ⟨2, 2, 2, ["p", "p"], ["f", "f"], ["o", "o"], [],
       [⟨0, Phase.done⟩, ⟨1, Phase.atDrain⟩]⟩ :=
    Step.cleanup_noskip _ [⟨0, Phase.done⟩] [] 1 rfl (by decide)
  have s14 : Step pDemo
      ⟨2, 2, 2, ["p", "p"], ["f", "f"], ["o", "o"], [],
       [⟨0, Phase.done⟩, ⟨1, Phase.atDrain⟩]⟩
      demoFinal :=
    Step.drain_exit_empty _ [⟨0, Phase.done⟩] [] 1 rfl rfl
  exact Relation.ReflTransGen.trans reach_demoC8
    (Relation.ReflTransGen.head s7 (Relation.ReflTransGen.head s8
      (Relation.ReflTransGen.head s9 (Relation.ReflTransGen.head s10
        (Relation.ReflTransGen.head s11 (Relation.ReflTransGen.head s12
          (Relation.ReflTransGen.head s13 (Relation.ReflTransGen.single s14))))))))

lemma reach_failAtCleanup : Reach pFail failAtCleanup :=
  Relation.ReflTransGen.single (Step.prep_fail _ [] [] 0 rfl rfl)

lemma reach_failFinal : Reach pFail failFinal := by
  have f2 : Step pFail failAtCleanup
      ⟨0, 0, 0, [], [], [], [], [⟨0, Phase.skipping StreamStage.pri⟩]⟩ :=
    Step.cleanup_skip _ [] [] 0 rfl (by decide)
  have f3 : Step pFail
      ⟨0, 0, 0, [], [], [], [], [⟨0, Phase.skipping StreamStage.pri⟩]⟩
      ⟨1, 0, 0, [], [], [], [], [⟨0, Phase.skipping StreamStage.fil⟩]⟩ :=
    Step.skip_pri _ [] [] 0 rfl rfl
  have f4 : Step pFail
      ⟨1, 0, 0, [], [], [], [], [⟨0, Phase.skipping StreamStage.fil⟩]⟩
      ⟨1, 1, 0, [], [], [], [], [⟨0, Phase.skipping StreamStage.oth⟩]⟩ :=
    Step.skip_fil _ [] [] 0 rfl rfl
  have f5 : Step pFail
      ⟨1, 1, 0, [], [], [], [], [⟨0, Phase.skipping StreamStage.oth⟩]⟩
      ⟨1, 1, 1, [], [], [], [], [⟨0, Phase.atDrain⟩]⟩ :=
    Step.skip_oth _ [] [] 0 rfl rfl
  have f6 : Step pFail
      ⟨1, 1, 1, [], [], [], [], [⟨0, Phase.atDrain⟩]⟩
      failFinal :=
    Step.drain_exit_empty _ [] [] 0 rfl rfl
  exact Relation.ReflTransGen.trans reach_failAtCleanup
    (Relation.ReflTransGen.head f2 (Relation.ReflTransGen.head f3
      (Relation.ReflTransGen.head f4 (Relation.ReflTransGen.head f5
        (Relation.ReflTransGen.single f6)))))

lemma reach_demoDefer : Reach pDemo3 demoDefer :=
  Relation.ReflTransGen.single
    (Step.prep_ok _ [⟨0, Phase.start⟩] [⟨2, Phase.start⟩] 1 rfl rfl)

lemma mem_heldM_of_mem {f : Proc → List Nat} {l : List Proc} {pr : Proc} {x : Nat}
    (hpr : pr ∈ l) (hx : x ∈ f pr) : x ∈ heldM f l := by
  induction l with
  | nil => cases hpr
  | cons a t ih =>
      rcases List.mem_cons.mp hpr with rfl | h2
      · show x ∈ ↑(f pr) + heldM f t
        exact Multiset.mem_add.mpr (Or.inl (Multiset.mem_coe.mpr hx))
      · show x ∈ ↑(f a) + heldM f t
        exact Multiset.mem_add.mpr (Or.inr (ih h2))

/- ------------------------------------------------------------------ -/
/- The claims.                                                         -/
/- ------------------------------------------------------------------ -/

/-- C5: a cache entry for the task's filename is reused (`old_used = TRUE`)
iff either `skip_stat` is set (and then no `stat()` is performed at all), or
the entry's `time_file` equals the stat mtime, its `size_package` equals the
stat size, and its `checksum_type` string equals the configured checksum
type name; otherwise the package is freshly parsed. -/
theorem claim_C5 (e : PreEnv) (junk : Bool) (md : CachedPkg) (sb : StatBuf)
    (hmeta : e.old_metadata = true) (hmd : e.lookup_md = some md)
    (hsb : e.skip_stat = true ∨ e.stat_result = some sb) :
    ((prePhase e junk).1 = PreOutcome.useOld md ↔
      (e.skip_stat = true ∨ statMatches sb md e.checksum_type_str = true))
    ∧ (e.skip_stat = true → (prePhase e junk).2 = false)
    ∧ ((prePhase e junk).1 = PreOutcome.useOld md ∨
        (prePhase e junk).1 = PreOutcome.loadFresh none) := by
  obtain ⟨om, ss, lm, sr, cts⟩ := e
  have hom : om = true := hmeta
  have hlm : lm = some md := hmd
  subst hom
  subst hlm
  cases ss with
  | true =>
      refine ⟨?_, ?_, ?_⟩
      · simp [prePhase]
      · intro _
        rfl
      · left
        rfl
  | false =>
      have hsr : sr = some sb := by
        rcases hsb with h | h
        · cases h
        · exact h
      subst hsr
      cases hm : statMatches sb md cts with
      | true =>
          refine ⟨?_, ?_, ?_⟩
          · simp [prePhase, hm]
          · intro h
            cases h
          · left
            simp [prePhase, hm]
      | false =>
          refine ⟨?_, ?_, ?_⟩
          · simp [prePhase, hm]
          · intro h
            cases h
          · right
            simp [prePhase, hm]

/-- C5 witness: the concrete fresh cache hit `eC5hit` is reused. -/
theorem claim_C5_witness :
    (prePhase eC5hit false).1 = PreOutcome.useOld ⟨10, 20, "sha256"⟩ :=
  (claim_C5 eC5hit false ⟨10, 20, "sha256"⟩ ⟨10, 20⟩ rfl rfl
    (Or.inr rfl)).1.mpr (Or.inr (by decide))

/-- C7 (amended): when not reusing a cache entry, `cr_dumper_thread` always
passes `NULL` as the stat argument of `load_rpm` — even when it performed a
`stat()` earlier — so `load_rpm` performs a fresh `stat()` on this path;
`load_rpm` itself takes `time_file` and `size_package` from a passed stat
buffer when one is supplied and only stats otherwise. -/
theorem claim_C7 :
    (∀ (e : PreEnv) (j : Bool) (a : Option StatBuf),
        (prePhase e j).1 = PreOutcome.loadFresh a → a = none)
    ∧ (∀ (env : LoadEnv) (href base : String) (sb : StatBuf),
        (load_rpm env href base (some sb)).2 = false
        ∧ ∀ pkg : Pkg, (load_rpm env href base (some sb)).1 = some pkg →
            pkg.time_file = sb.st_mtime ∧ pkg.size_package = sb.st_size)
    ∧ (∀ (env : LoadEnv) (href base : String),
        env.parse_ok = true → (load_rpm env href base none).2 = true) := by
  refine ⟨?_, ?_, ?_⟩
  · intro e j a h
    obtain ⟨om, ss, lm, sr, cts⟩ := e
    cases om <;> cases ss <;> rcases lm with _ | md <;> rcases sr with _ | sb <;>
      simp [prePhase] at h <;> try exact h.symm
    · rcases h' : statMatches sb md cts with _ | _ <;> simp [h'] at h
      exact h.symm
  · intro env href base sb
    constructor
    · cases hpo : env.parse_ok <;> simp [load_rpm, hpo]
    · intro pkg h
      cases hpo : env.parse_ok <;> rw [load_rpm] at h <;> simp [hpo] at h
      rcases hck : env.checksum_result with _ | ck <;>
        rcases hhr : env.header_range with _ | hr <;>
          simp [load_rpm_rest, hck, hhr] at h
      rw [← h]
      exact ⟨rfl, rfl⟩
  · intro env href base hpo
    cases hfs : env.fs_stat <;> simp [load_rpm, hpo, hfs]

/-- C7 counterexample: in the concrete stale-cache environment `eC7` the
worker obtained a stat result (`some ⟨10, 20⟩`), and the claim as stated
would have the extractor invoked with that stat; the code instead reaches
`load_rpm` with stat argument `NULL` (`none`). -/
theorem claim_C7_cex :
    eC7.old_metadata = true ∧ eC7.skip_stat = false
    ∧ eC7.stat_result = some ⟨10, 20⟩
    ∧ (prePhase eC7 false).1 = PreOutcome.loadFresh none
    ∧ PreOutcome.loadFresh eC7.stat_result ≠ PreOutcome.loadFresh none := by
  decide

/-- C10: the worker never reads the uninitialized `stat_buf`: the outcome of
the stat / cache phase never depends on the junk value that an
uninitialized read would produce, and a `stat()` failure jumps to the
failure path before any freshness comparison. -/
theorem claim_C10 :
    (∀ (e : PreEnv) (j₁ j₂ : Bool), prePhase e j₁ = prePhase e j₂)
    ∧ ∀ (e : PreEnv) (j : Bool), e.old_metadata = true → e.skip_stat = false →
        e.stat_result = none → (prePhase e j).1 = PreOutcome.taskCleanup := by
  constructor
  · intro e j₁ j₂
    obtain ⟨om, ss, lm, sr, cts⟩ := e
    cases om <;> cases ss <;> rcases lm with _ | md <;> rcases sr with _ | sb <;> rfl
  · intro e j hom hss hsr
    obtain ⟨om, ss, lm, sr, cts⟩ := e
    have h1 : om = true := hom
    have h2 : ss = false := hss
    have h3 : sr = none := hsr
    subst h1
    subst h2
    subst h3
    rcases lm with _ | md <;> rfl

/-- C10 witness: junk-independence and the stat-failure jump at concrete
environments. -/
theorem claim_C10_witness :
    prePhase eC5hit true = prePhase eC5hit false
    ∧ (prePhase ⟨true, false, none, none, "sha256"⟩ true).1 = PreOutcome.taskCleanup :=
  ⟨claim_C10.1 eC5hit true false,
   claim_C10.2 ⟨true, false, none, none, "sha256"⟩ true rfl rfl rfl⟩

/-- C6: `write_pkg` advances all three counters and broadcasts on all three
streams no matter which appends or database inserts fail (no failure
propagates or aborts); but a failing insert into the other database is NOT
critically logged: the source passes `NULL` as the error pointer at line
131, leaving `tmp_err` `NULL`, so the log block at lines 132-136 is dead —
at the failing input (other db configured, other insert fails) the log
stays empty, while the same failure on the primary database is logged. -/
theorem claim_C6 :
    (∀ (idv : Nat) (res : cr_XmlStruct) (cfg : SinkCfg) (errs : ErrInj) (s0 : SeqSink),
        (write_pkg_seq idv res cfg errs s0).id_pri = s0.id_pri + 1
        ∧ (write_pkg_seq idv res cfg errs s0).id_fil = s0.id_fil + 1
        ∧ (write_pkg_seq idv res cfg errs s0).id_oth = s0.id_oth + 1
        ∧ (write_pkg_seq idv res cfg errs s0).bcast_pri = s0.bcast_pri + 1
        ∧ (write_pkg_seq idv res cfg errs s0).bcast_fil = s0.bcast_fil + 1
        ∧ (write_pkg_seq idv res cfg errs s0).bcast_oth = s0.bcast_oth + 1)
    ∧ (write_pkg_seq 0 ⟨"p", "f", "o"⟩ ⟨true, true, true⟩
        ⟨false, false, false, false, false, true⟩
        ⟨0, 0, 0, [], [], [], [], 0, 0, 0⟩).log = []
    ∧ (write_pkg_seq 0 ⟨"p", "f", "o"⟩ ⟨true, true, true⟩
        ⟨false, false, false, false, false, true⟩
        ⟨0, 0, 0, [], [], [], [], 0, 0, 0⟩).id_oth = 1
    ∧ (write_pkg_seq 0 ⟨"p", "f", "o"⟩ ⟨true, true, true⟩
        ⟨false, false, false, true, false, false⟩
        ⟨0, 0, 0, [], [], [], [], 0, 0, 0⟩).log = ["Cannot add record to primary db"] := by
  refine ⟨?_, by decide, by decide, by decide⟩
  intro idv res cfg errs s0
  simp only [write_pkg_seq]
  split_ifs <;> simp

/-- C1: for every task outcome assignment and every interleaving of the
worker steps (hence every completion order and every pool size), a
completed run has appended to each of the three streams exactly the bytes
of the serial reference — the run that processes tasks in id order
`0 .. N-1`, appending each successful task's chunk. -/
theorem claim_C1 (p : RunEnv) (s : DumperState) (h : Reach p s) (hdone : Terminal s) :
    s.out_pri = serialRef p cr_XmlStruct.primary p.package_count
    ∧ s.out_fil = serialRef p cr_XmlStruct.filelists p.package_count
    ∧ s.out_oth = serialRef p cr_XmlStruct.other p.package_count := by
  obtain ⟨_, _, _, h4, h5, h6⟩ := run_complete h hdone
  exact ⟨h4, h5, h6⟩

/-- C1 witness: the concrete two-task run ends with the serial outputs. -/
theorem claim_C1_witness :
    Terminal demoFinal
    ∧ demoFinal.out_pri = serialRef pDemo cr_XmlStruct.primary pDemo.package_count
    ∧ demoFinal.out_fil = serialRef pDemo cr_XmlStruct.filelists pDemo.package_count
    ∧ demoFinal.out_oth = serialRef pDemo cr_XmlStruct.other pDemo.package_count := by
  have hdone : Terminal demoFinal := by unfold Terminal; decide
  have h := claim_C1 pDemo demoFinal reach_demoFinal hdone
  exact ⟨hdone, h.1, h.2.1, h.2.2⟩

/-- C2: for every assignment of per-task failures and every interleaving,
once all `N` worker invocations have returned, all three counters equal
`N = package_count`. -/
theorem claim_C2 (p : RunEnv) (s : DumperState) (h : Reach p s) (hdone : Terminal s) :
    s.id_pri = p.package_count ∧ s.id_fil = p.package_count
      ∧ s.id_oth = p.package_count := by
  obtain ⟨h1, h2, h3, _, _, _⟩ := run_complete h hdone
  exact ⟨h1, h2, h3⟩

/-- C2 witness: the all-failing one-task run ends with all counters at 1. -/
theorem claim_C2_witness :
    Terminal failFinal ∧ failFinal.id_pri = 1 ∧ failFinal.id_fil = 1
      ∧ failFinal.id_oth = 1 := by
  have hdone : Terminal failFinal := by unfold Terminal; decide
  have h := claim_C2 pFail failFinal reach_failFinal hdone
  exact ⟨hdone, h.1, h.2.1, h.2.2⟩

/-- C3 counterexample: a completed one-task run whose task failed emits NO
record on any of the three streams (the failure path only advances the
counters), contradicting the claim that exactly one record is emitted per
id on each stream regardless of extraction failure. -/
theorem claim_C3_cex :
    Reach pFail failFinal ∧ Terminal failFinal ∧ pFail.package_count = 1
    ∧ failFinal.id_pri = 1 ∧ failFinal.id_fil = 1 ∧ failFinal.id_oth = 1
    ∧ failFinal.out_pri = [] ∧ failFinal.out_fil = [] ∧ failFinal.out_oth = [] :=
  ⟨reach_failFinal, by unfold Terminal; decide, rfl, rfl, rfl, rfl, rfl, rfl, rfl⟩

/-- C3 (amended): for each id exactly one counter advance per stream occurs
before the run ends (all three counters reach `N`), and a record is emitted
on each stream iff the task succeeded — the number of records per stream is
the number of successful ids, and the streams equal the serial reference. -/
theorem claim_C3 (p : RunEnv) (s : DumperState) (h : Reach p s) (hdone : Terminal s) :
    s.id_pri = p.package_count ∧ s.id_fil = p.package_count
    ∧ s.id_oth = p.package_count
    ∧ s.out_pri.length = successCount p p.package_count
    ∧ s.out_fil.length = successCount p p.package_count
    ∧ s.out_oth.length = successCount p p.package_count
    ∧ s.out_pri = serialRef p cr_XmlStruct.primary p.package_count
    ∧ s.out_fil = serialRef p cr_XmlStruct.filelists p.package_count
    ∧ s.out_oth = serialRef p cr_XmlStruct.other p.package_count := by
  obtain ⟨h1, h2, h3, h4, h5, h6⟩ := run_complete h hdone
  refine ⟨h1, h2, h3, ?_, ?_, ?_, h4, h5, h6⟩
  · rw [h4]
    exact serialRef_length p _ _
  · rw [h5]
    exact serialRef_length p _ _
  · rw [h6]
    exact serialRef_length p _ _

/-- C3 amended witness: the failing run ends with counters 1 and zero
records per stream (`successCount pFail 1 = 0`). -/
theorem claim_C3_witness :
    Terminal failFinal ∧ failFinal.id_pri = 1
      ∧ failFinal.out_pri.length = successCount pFail 1 := by
  have hdone : Terminal failFinal := by unfold Terminal; decide
  have h := claim_C3 pFail failFinal reach_failFinal hdone
  exact ⟨hdone, h.1, h.2.2.2.1⟩

/-- C4: a completed result is admitted to the reorder buffer iff the buffer
holds fewer than `MAX_TASK_BUFFER_LEN = 20` entries, the task id differs
from the current `id_pri`, and the task is not the last one
(`package_count > id + 1`); an admitted worker becomes `done` without
appending to any stream, and in every reachable state the buffer holds at
most 20 entries. -/
theorem claim_C4 (p : RunEnv) (s : DumperState) (h : Reach p s) :
    s.buffer.length ≤ MAX_TASK_BUFFER_LEN
    ∧ (∀ (a : Nat) (q : List BufferedTask) (i : Nat) (res : cr_XmlStruct),
        (tryBufferTask p a q i res).isSome = true ↔
          (q.length < MAX_TASK_BUFFER_LEN ∧ a ≠ i ∧ p.package_count > i + 1))
    ∧ ∀ (l₁ l₂ : List Proc) (i : Nat) (res : cr_XmlStruct) (buf2 : List BufferedTask),
        s.procs = l₁ ++ ⟨i, Phase.atBufferCheck res⟩ :: l₂ →
        tryBufferTask p s.id_pri s.buffer i res = some buf2 →
        ∃ s2 : DumperState, Step p s s2 ∧ s2.out_pri = s.out_pri ∧ s2.out_fil = s.out_fil
          ∧ s2.out_oth = s.out_oth ∧ s2.procs = l₁ ++ ⟨i, Phase.done⟩ :: l₂
          ∧ s2.buffer = buf2 ∧ s2.buffer.length ≤ MAX_TASK_BUFFER_LEN := by
  refine ⟨(reach_inv h).buf_len, ?_, ?_⟩
  · intro a q i res
    constructor
    · intro hs
      obtain ⟨buf2, hb⟩ := Option.isSome_iff_exists.mp hs
      exact (tryBufferTask_some_iff.mp hb).1
    · intro hc
      unfold tryBufferTask
      rw [if_pos hc]
      rfl
  · intro l₁ l₂ i res buf2 hp ht
    refine ⟨{ s with procs := l₁ ++ ⟨i, Phase.done⟩ :: l₂, buffer := buf2 },
      Step.buffer_defer s l₁ l₂ i res buf2 hp ht, rfl, rfl, rfl, rfl, rfl, ?_⟩
    obtain ⟨⟨hlen, _, _⟩, hbuf2⟩ := tryBufferTask_some_iff.mp ht
    subst hbuf2
    show (bufInsert ⟨i, res⟩ s.buffer).length ≤ MAX_TASK_BUFFER_LEN
    unfold bufInsert
    rw [List.orderedInsert_length]
    omega

/-- C4 witness: in the concrete three-task state `demoDefer`, worker 1
(id 1 ≠ id_pri = 0, not the last task) is admitted, turns `done`, writes
nothing, and the buffer stays within bound. -/
theorem claim_C4_witness :
    demoDefer.buffer.length ≤ MAX_TASK_BUFFER_LEN
    ∧ ((tryBufferTask pDemo3 0 [] 1 ⟨"p", "f", "o"⟩).isSome = true ↔
        (([] : List BufferedTask).length < MAX_TASK_BUFFER_LEN ∧ (0 : Nat) ≠ 1
          ∧ pDemo3.package_count > 1 + 1))
    ∧ ∃ s2 : DumperState, Step pDemo3 demoDefer s2
        ∧ s2.out_pri = demoDefer.out_pri ∧ s2.out_fil = demoDefer.out_fil
        ∧ s2.out_oth = demoDefer.out_oth
        ∧ s2.procs = [⟨0, Phase.start⟩] ++ ⟨1, Phase.done⟩ :: [⟨2, Phase.start⟩]
        ∧ s2.buffer = [⟨1, ⟨"p", "f", "o"⟩⟩]
        ∧ s2.buffer.length ≤ MAX_TASK_BUFFER_LEN := by
  have h := claim_C4 pDemo3 demoDefer reach_demoDefer
  refine ⟨h.1, h.2.1 0 [] 1 ⟨"p", "f", "o"⟩, ?_⟩
  exact h.2.2 [⟨0, Phase.start⟩] [⟨2, Phase.start⟩] 1 ⟨"p", "f", "o"⟩
    [⟨1, ⟨"p", "f", "o"⟩⟩] rfl (by decide)

/-- C8: `write_pkg` proceeds through the streams in the fixed order
primary → filelists → other (a worker at the filelists stage has already
advanced the primary counter for its id, and at the other stage both
earlier counters), and the three counters are independent: in the concrete
run below both primary writes completed (`id_pri = 2`) while worker 0 is
still at its filelists critical section and `id_fil = 0`. -/
theorem claim_C8 :
    (∀ (p : RunEnv) (s : DumperState), Reach p s →
      ∀ pr ∈ s.procs, ∀ (j : Nat) (res : cr_XmlStruct) (st : StreamStage) (m : WriteMode),
        pr.ph = Phase.writing j res st m →
        (st = StreamStage.fil → j < s.id_pri)
        ∧ (st = StreamStage.oth → j < s.id_pri ∧ j < s.id_fil))
    ∧ Reach pDemo demoC8 ∧ demoC8.id_pri = 2 ∧ demoC8.id_fil = 0
    ∧ ⟨0, Phase.writing 0 ⟨"p", "f", "o"⟩ StreamStage.fil WriteMode.own⟩ ∈ demoC8.procs := by
  constructor
  · intro p s h pr hpr j res st m hph
    have hinv := reach_inv h
    obtain ⟨tid, ph⟩ := pr
    have hph2 : ph = Phase.writing j res st m := hph
    subst hph2
    obtain ⟨_, _, _, h4, h5⟩ := hinv.wf _ hpr
    exact ⟨h4, h5⟩
  · exact ⟨reach_demoC8, rfl, rfl, by decide⟩

/-- C8 witness: applying the stage-order part at the concrete mid-run
state: worker 0 at the filelists stage has `0 < id_pri`. -/
theorem claim_C8_witness : 0 < demoC8.id_pri := by
  have h := claim_C8.1 pDemo demoC8 reach_demoC8
    ⟨0, Phase.writing 0 ⟨"p", "f", "o"⟩ StreamStage.fil WriteMode.own⟩ (by decide)
    0 ⟨"p", "f", "o"⟩ StreamStage.fil WriteMode.own rfl
  exact h.1 rfl

/-- C9: at the `task_cleanup` test, `id_pri <= task->id` holds (and the
skip advance executes) exactly for tasks whose extraction failed; after a
successful write the test is false (`task->id < id_pri`), so the skip never
advances a second time; the skip phase is only ever entered by failed
tasks, and a completed run has advanced every counter exactly once per id
(all three counters reach `package_count`). -/
theorem claim_C9 (p : RunEnv) (s : DumperState) (h : Reach p s) :
    (∀ pr ∈ s.procs, pr.ph = Phase.atCleanupCheck →
        (p.success pr.tid = false → s.id_pri ≤ pr.tid)
        ∧ (p.success pr.tid = true → pr.tid < s.id_pri))
    ∧ (∀ pr ∈ s.procs, ∀ st : StreamStage, pr.ph = Phase.skipping st →
        p.success pr.tid = false)
    ∧ (Terminal s → s.id_pri = p.package_count ∧ s.id_fil = p.package_count
        ∧ s.id_oth = p.package_count) := by
  have hinv := reach_inv h
  refine ⟨?_, ?_, ?_⟩
  · intro pr hpr hph
    obtain ⟨tid, ph⟩ := pr
    have hph2 : ph = Phase.atCleanupCheck := hph
    subst hph2
    constructor
    · intro hfail
      have hmem : tid ∈ heldM (heldPriL p) s.procs :=
        mem_heldM_of_mem hpr (by simp [heldPriL, hfail])
      have hin : tid ∈ idsFrom s.id_pri p.package_count := by
        rw [← hinv.acc_pri]
        exact Multiset.mem_add.mpr (Or.inl hmem)
      exact (mem_idsFrom.mp hin).1
    · intro hsucc
      exact hinv.wf _ hpr hsucc
  · intro pr hpr st hph
    obtain ⟨tid, ph⟩ := pr
    have hph2 : ph = Phase.skipping st := hph
    subst hph2
    exact (hinv.wf _ hpr).1
  · intro hdone
    obtain ⟨h1, h2, h3, _⟩ := terminal_final hinv hdone
    exact ⟨h1, h2, h3⟩

/-- C9 witness: in the concrete failed run, at the cleanup test the guard
`id_pri <= 0` holds, so the skip path executes. -/
theorem claim_C9_witness : failAtCleanup.id_pri ≤ 0 := by
  have h := (claim_C9 pFail failAtCleanup reach_failAtCleanup).1
    ⟨0, Phase.atCleanupCheck⟩ (by decide) rfl
  exact h.1 rfl

/-- C7 witness: the amended statement applied at concrete inputs: the
stale-cache environment reaches `load_rpm` with stat argument `none`, and a
`load_rpm` call that IS given a stat buffer does not stat again. -/
theorem claim_C7_witness :
    ((none : Option StatBuf) = none)
    ∧ (load_rpm ⟨true, some ⟨1, 2⟩, some "c", some (3, 4), "sha256"⟩ "h" "b"
        (some ⟨10, 20⟩)).2 = false
    ∧ (load_rpm ⟨true, some ⟨1, 2⟩, some "c", some (3, 4), "sha256"⟩ "h" "b" none).2 = true :=
  ⟨claim_C7.1 eC7 false none (by decide),
   (claim_C7.2.1 ⟨true, some ⟨1, 2⟩, some "c", some (3, 4), "sha256"⟩ "h" "b" ⟨10, 20⟩).1,
   claim_C7.2.2 ⟨true, some ⟨1, 2⟩, some "c", some (3, 4), "sha256"⟩ "h" "b" rfl⟩
